import Mathlib

set_option linter.unusedVariables false
set_option maxRecDepth 40000

namespace UMC

/-! Shallow embedding of the Markdown→HTML→PDF conversion pipeline of
`universal_md_converter.py` (class `MarkdownConverter`): the string
templates, the single-file conversions `convert_md_to_html` and
`convert_md_to_pdf`, the browser scan `html_to_pdf_chrome`, and the
batch driver `batch_convert`.  External collaborators (the markdown
engine, the subprocess-invoked browser, the filesystem and the clock)
are passed in explicitly; file operations additionally produce a trace
of events. -/

/-- Python `str.title()` restricted to ASCII (matching Lean's
`Char.toUpper`/`Char.toLower`): an alphabetic character is uppercased when
the previous character is not alphabetic, and lowercased otherwise. -/
def titleAux : Bool → List Char → List Char
  | _, [] => []
  | prevAlpha, c :: t =>
    (if c.isAlpha then (if prevAlpha then c.toLower else c.toUpper) else c) :: titleAux c.isAlpha t

/-- Python `s.title()`. -/
def pythonTitle (s : String) : String := ⟨titleAux false s.data⟩

/-- Python `s.replace('_', ' ')` (single-character replacement). -/
def underscoresToSpaces (s : String) : String :=
  ⟨s.data.map (fun c => if c = '_' then ' ' else c)⟩

/-- The derived document title `input_path.stem.replace('_', ' ').title()`. -/
def derivedTitle (stem : String) : String := pythonTitle (underscoresToSpaces stem)

/-- Wall-clock time, as consumed by `datetime.now().strftime("%Y-%m-%d %H:%M")`. -/
structure Timestamp where
  year : Nat
  month : Nat
  day : Nat
  hour : Nat
  minute : Nat
deriving DecidableEq

/-- Two-digit zero-padded decimal rendering (strftime `%m`, `%d`, `%H`, `%M`). -/
def pad2 (n : Nat) : List Char := [Nat.digitChar (n / 10 % 10), Nat.digitChar (n % 10)]

/-- Four-digit zero-padded decimal rendering (strftime `%Y` for ordinary years). -/
def pad4 (n : Nat) : List Char :=
  [Nat.digitChar (n / 1000 % 10), Nat.digitChar (n / 100 % 10),
   Nat.digitChar (n / 10 % 10), Nat.digitChar (n % 10)]

/-- The generation timestamp `datetime.now().strftime("%Y-%m-%d %H:%M")`. -/
def formatTimestamp (t : Timestamp) : String :=
  ⟨pad4 t.year ++ '-' :: pad2 t.month ++ '-' :: pad2 t.day ++
   ' ' :: pad2 t.hour ++ ':' :: pad2 t.minute⟩

/-- A filesystem path in parsed form: parent directory (kept as a plain
string), stem (`pathlib.Path.stem`) and suffix including its leading dot
(`pathlib.Path.suffix`; empty when the name has no suffix). -/
structure PyPath where
  dir : String
  stem : String
  ext : String
deriving DecidableEq

/-- Python `path.with_suffix(s)`: replace the suffix, keeping directory and stem. -/
def PyPath.withSuffix (p : PyPath) (s : String) : PyPath := ⟨p.dir, p.stem, s⟩

/-- Python `path.name`: the final component, stem plus suffix. -/
def PyPath.fileName (p : PyPath) : String := p.stem ++ p.ext

/-- Contents of a file on disk: readable text, a file whose `open` raises an
`OSError` (e.g. no read permission), or opaque binary data written by the
external PDF renderer. -/
inductive FVal where
  | text (s : String)
  | unreadable
  | pdfData

/-- The filesystem: the set of existing directories and an association list
from paths to file contents (insertion order is the enumeration order that
`Path.glob` reports). -/
structure FS where
  dirs : List String
  files : List (PyPath × FVal)

/-- Look a file up. -/
def FS.findFile (fs : FS) (p : PyPath) : Option FVal :=
  (fs.files.find? (fun e => decide (e.1 = p))).map (fun e => e.2)

/-- Python `path.exists()` for files. -/
def FS.existsFile (fs : FS) (p : PyPath) : Bool := (fs.findFile p).isSome

/-- Write (create or overwrite) a file. -/
def FS.setFile (fs : FS) (p : PyPath) (v : FVal) : FS :=
  if fs.files.any (fun e => decide (e.1 = p)) then
    ⟨fs.dirs, fs.files.map (fun e => if e.1 = p then (p, v) else e)⟩
  else
    ⟨fs.dirs, fs.files ++ [(p, v)]⟩

/-- Python `os.unlink` wrapped in `try/except: pass`: best-effort removal. -/
def FS.delFile (fs : FS) (p : PyPath) : FS :=
  ⟨fs.dirs, fs.files.filter (fun e => decide (¬ e.1 = p))⟩

/-- Python `path.mkdir(parents=True, exist_ok=True)` for a directory. -/
def FS.mkdirParents (fs : FS) (d : String) : FS :=
  if d ∈ fs.dirs then fs else ⟨fs.dirs ++ [d], fs.files⟩

/-- Observable side effects of a conversion run, in order. -/
inductive Event where
  | readF (p : PyPath)
  | writeF (p : PyPath) (content : String)
  | chromePdf (p : PyPath)
  | deleteF (p : PyPath)
  | openBrowser (p : PyPath)

/-- The external markdown engine: module availability (`MARKDOWN_AVAILABLE`)
and the pure conversion `markdown.Markdown(extensions=...).convert`. -/
structure MdEngine where
  available : Bool
  convert : String → String

/-- Outcome of the version-probe subprocess for one candidate binary: it ran
and exited 0, or it raised one of the caught exceptions
(`CalledProcessError` via `check=True`, `FileNotFoundError`, `TimeoutExpired`). -/
inductive VersionOutcome where
  | versionOk
  | exnCaught
deriving DecidableEq

/-- Outcome of the headless print-to-PDF subprocess for one candidate binary:
a caught exception (`FileNotFoundError`, `TimeoutExpired`), or a normal exit
with the given return code (`check` is not set on this call). -/
inductive RenderOutcome where
  | exnCaught
  | exitCode (code : Nat)
deriving DecidableEq

/-- The external browser environment: what the two subprocess invocations do
for a given candidate binary, html file and pdf target. -/
structure ChromeEnv where
  attempt : String → PyPath → PyPath → VersionOutcome × RenderOutcome

/-- Exceptions raised by the pipeline: `ImportError` when the markdown
library is unavailable, `FileNotFoundError` for a missing input file,
`OSError` escaping from `open` on an unreadable input, and the `ValueError`
raised by `batch_convert` for a missing input directory. -/
inductive ConvError where
  | dependencyMissing
  | inputNotFound
  | readFailure
  | inputDirNotFound
deriving DecidableEq

-- The CSS stylesheet from `_create_css_template` (3749 characters), split into
-- consecutive chunks so that proofs can evaluate each chunk separately.
def cssChunk0 : String := "\n        body \x7b\n            font-family: \x27Segoe UI\x27, Tahoma, Geneva, Verdana, sans-serif;\n            line-height: 1.6;\n            color: \x23333;\n            max-width: 1200px;\n            margin: 0 auto;\n            padding: 20px;\n            background-color: \x23fff;\n        \x7d\n\n        h1, h2, h3, h4, h5, h6 \x7b\n            color: \x232c3e50;\n            margin-top: 1.5em;\n            margin-bottom: 0.5em;\n            font-weight: bold;\n            page-break-after: avoid;\n        \x7d\n\n        h1 \x7b\n            font-size: 2.2em;\n"
def cssChunk1 : String := "            border-bottom: 3px solid \x233498db;\n            padding-bottom: 0.3em;\n        \x7d\n\n        h2 \x7b\n            font-size: 1.8em;\n            border-bottom: 2px solid \x2395a5a6;\n            padding-bottom: 0.2em;\n        \x7d\n\n        h3 \x7b font-size: 1.4em; color: \x2334495e; \x7d\n        h4 \x7b font-size: 1.2em; color: \x2334495e; \x7d\n\n        p \x7b\n            margin-bottom: 1em;\n            text-align: justify;\n        \x7d\n\n        ul, ol \x7b\n            margin-bottom: 1em;\n            padding-left: 2em;\n        \x7d\n\n        li \x7b margin-bottom: 0.3em; \x7d\n\n"
def cssChunk2 : String := "        table \x7b\n            border-collapse: collapse;\n            width: 100%;\n            margin: 1em 0;\n            font-size: 0.9em;\n            box-shadow: 0 2px 4px rgba(0,0,0,0.1);\n            page-break-inside: avoid;\n        \x7d\n\n        th, td \x7b\n            border: 1px solid \x23ddd;\n            padding: 12px 15px;\n            text-align: left;\n            vertical-align: top;\n        \x7d\n\n        th \x7b\n            background: linear-gradient(135deg, \x23667eea 0%, \x23764ba2 100%);\n            color: white;\n            font-weight: bold;\n"
def cssChunk3 : String := "        \x7d\n\n        tr:nth-child(even) \x7b background-color: \x23f8f9fa; \x7d\n        tr:hover \x7b background-color: \x23e8f4fd; \x7d\n\n        code \x7b\n            background-color: \x23f4f4f4;\n            padding: 2px 6px;\n            border-radius: 4px;\n            font-family: \x27Courier New\x27, Consolas, monospace;\n            font-size: 0.9em;\n            color: \x23e74c3c;\n            border: 1px solid \x23e1e1e1;\n        \x7d\n\n        pre \x7b\n            background-color: \x23f8f8f8;\n            border: 1px solid \x23ddd;\n            border-radius: 6px;\n"
def cssChunk4 : String := "            padding: 1.2em;\n            overflow-x: auto;\n            margin: 1em 0;\n            box-shadow: inset 0 1px 3px rgba(0,0,0,0.1);\n            page-break-inside: avoid;\n        \x7d\n\n        pre code \x7b\n            background-color: transparent;\n            padding: 0;\n            color: \x23333;\n            border: none;\n        \x7d\n\n        blockquote \x7b\n            border-left: 4px solid \x233498db;\n            margin: 1em 0;\n            padding: 1em 1em 1em 2em;\n            color: \x23666;\n            font-style: italic;\n"
def cssChunk5 : String := "            background-color: \x23f9f9f9;\n            border-radius: 0 4px 4px 0;\n        \x7d\n\n        a \x7b\n            color: \x233498db;\n            text-decoration: none;\n            transition: color 0.3s ease;\n        \x7d\n\n        a:hover \x7b\n            color: \x232980b9;\n            text-decoration: underline;\n        \x7d\n\n        hr \x7b\n            border: none;\n            border-top: 2px solid \x23ecf0f1;\n            margin: 2em 0;\n        \x7d\n\n        strong, b \x7b font-weight: bold; color: \x232c3e50; \x7d\n        em, i \x7b font-style: italic; \x7d\n\n"
def cssChunk6 : String := "        .status-complete \x7b color: \x2327ae60; font-weight: bold; \x7d\n        .status-progress \x7b color: \x23f39c12; font-weight: bold; \x7d\n        .status-pending \x7b color: \x2395a5a6; font-weight: bold; \x7d\n\n        @media print \x7b\n            body \x7b font-size: 12pt; line-height: 1.4; \x7d\n            h1, h2, h3 \x7b page-break-after: avoid; \x7d\n            table, pre \x7b page-break-inside: avoid; \x7d\n        \x7d\n\n        @media (max-width: 768px) \x7b\n            body \x7b padding: 10px; \x7d\n            table \x7b font-size: 0.8em; \x7d\n            th, td \x7b padding: 8px 10px; \x7d\n"
def cssChunk7 : String := "        \x7d\n        "

/-- The stylesheet returned by `_create_css_template`, the concatenation of its chunks. -/
def css_template : String := cssChunk0 ++ (cssChunk1 ++ (cssChunk2 ++ (cssChunk3 ++ (cssChunk4 ++ (cssChunk5 ++ (cssChunk6 ++ (cssChunk7)))))))

-- The page skeleton from `_create_html_template`, split at its five format
-- placeholders title, css, header_section, content, footer_section.
def htmlTpl0 : String := "<!DOCTYPE html>\n<html lang=\"en\">\n<head>\n    <meta charset=\"UTF-8\">\n    <meta name=\"viewport\" content=\"width=device-width, initial-scale=1.0\">\n    <title>"
def htmlTpl1 : String := "</title>\n    <style>"
def htmlTpl2 : String := "</style>\n</head>\n<body>\n    "
def htmlTpl3 : String := "\n    <div class=\"content\">\n        "
def htmlTpl4 : String := "\n    </div>\n    "
def htmlTpl5 : String := "\n</body>\n</html>"

-- The header block from `_create_header_section`, split at its two format
-- placeholders title and date.
def hdrTpl0 : String := "    <div class=\"header\">\n        <h1 class=\"document-title\">"
def hdrTpl1 : String := "</h1>\n        <p class=\"document-meta\">Generated on "
def hdrTpl2 : String := " | <a href=\"\x23\" onclick=\"window.print()\">Print to PDF</a></p>\n    </div>"

/-- The footer block from `_create_footer_section`. -/
def footerTpl : String := "    <div class=\"footer\">\n        <hr>\n        <p style=\"text-align: center; color: \x23666; font-size: 0.9em;\">\n            Converted with Universal Markdown Converter\n        </p>\n    </div>"

/-- The header block `_create_header_section(title, date)`. -/
def create_header_section (title date : String) : String :=
  hdrTpl0 ++ (title ++ (hdrTpl1 ++ (date ++ hdrTpl2)))

/-- The footer block `_create_footer_section()`. -/
def create_footer_section : String := footerTpl

/-- The template instantiation `html_template.format(title=..., css=...,
content=..., header_section=..., footer_section=...)`. -/
def html_template_format (title css content header_section footer_section : String) : String :=
  htmlTpl0 ++ (title ++ (htmlTpl1 ++ (css ++ (htmlTpl2 ++ (header_section ++
    (htmlTpl3 ++ (content ++ (htmlTpl4 ++ (footer_section ++ htmlTpl5)))))))))

/-- The single-file HTML conversion `convert_md_to_html(input_file,
output_file, include_headers)`.  Returns the raised exception or the output
path, together with the updated filesystem and the trace of file events. -/
def convert_md_to_html (md : MdEngine) (now : Timestamp) (fs : FS)
    (input_file : PyPath) (output_file : Option PyPath) (include_headers : Bool) :
    Except ConvError PyPath × FS × List Event :=
  if md.available = false then (.error .dependencyMissing, fs, [])
  else if fs.existsFile input_file = false then (.error .inputNotFound, fs, [])
  else
    let output := output_file.getD (input_file.withSuffix ".html")
    match fs.findFile input_file with
    | some (.text md_content) =>
      let html_content := md.convert md_content
      let title := derivedTitle input_file.stem
      let header_section :=
        if include_headers then create_header_section title (formatTimestamp now) else ""
      let footer_section := if include_headers then create_footer_section else ""
      let full_html := html_template_format title css_template html_content header_section footer_section
      (.ok output, fs.setFile output (.text full_html),
        [.readF input_file, .writeF output full_html])
    | _ => (.error .readFailure, fs, [])

/-- The fixed, ordered candidate list `chrome_paths`. -/
def chrome_paths : List String :=
  ["chrome", "google-chrome", "chromium", "chromium-browser",
   "C:\\Program Files\\Google\\Chrome\\Application\\chrome.exe",
   "C:\\Program Files (x86)\\Google\\Chrome\\Application\\chrome.exe",
   "/Applications/Google Chrome.app/Contents/MacOS/Google Chrome"]

/-- One candidate attempt succeeds when the version probe exits 0 and the
render subprocess returns with exit status 0. -/
def attemptGood (env : ChromeEnv) (html_file pdf_file : PyPath) (chrome_path : String) : Bool :=
  match env.attempt chrome_path html_file pdf_file with
  | (.versionOk, .exitCode 0) => true
  | _ => false

/-- The candidate loop of `html_to_pdf_chrome`: first success wins, any
caught failure moves on to the next candidate. -/
def scanChrome (env : ChromeEnv) (html_file pdf_file : PyPath) : List String → Bool
  | [] => false
  | p :: rest =>
    if attemptGood env html_file pdf_file p then true
    else scanChrome env html_file pdf_file rest

/-- The HTML-to-PDF stage `html_to_pdf_chrome(html_file, pdf_file)`. -/
def html_to_pdf_chrome (env : ChromeEnv) (html_file pdf_file : PyPath) : Bool :=
  scanChrome env html_file pdf_file chrome_paths

/-- The single-file PDF conversion `convert_md_to_pdf(input_file,
output_file, include_headers)`. -/
def convert_md_to_pdf (md : MdEngine) (env : ChromeEnv) (now : Timestamp) (fs : FS)
    (input_file : PyPath) (output_file : Option PyPath) (include_headers : Bool) :
    Except ConvError PyPath × FS × List Event :=
  let output := output_file.getD (input_file.withSuffix ".pdf")
  match convert_md_to_html md now fs input_file none include_headers with
  | (.error e, fs1, ev1) => (.error e, fs1, ev1)
  | (.ok html_file, fs1, ev1) =>
    if html_to_pdf_chrome env html_file output then
      ((.ok output, (fs1.setFile output .pdfData).delFile html_file,
        ev1 ++ [.chromePdf output, .deleteF html_file]))
    else
      ((.ok html_file, fs1, ev1 ++ [.openBrowser html_file]))

/-- Glob pattern matching on a file name, as in `fnmatch` restricted to the
`*` and `?` wildcards (character classes are not used by this program). -/
def globMatch : List Char → List Char → Bool
  | [], s => s.isEmpty
  | c :: pr, s =>
    if c = '*' then s.tails.any (fun t => globMatch pr t)
    else
      match s with
      | [] => false
      | d :: st => (c = '?' || c = d) && globMatch pr st

/-- Python `input_path.glob(pattern)`: the files directly under `dir` whose
name matches the pattern, in filesystem enumeration order. -/
def FS.glob (fs : FS) (dir : String) (pattern : String) : List PyPath :=
  (fs.files.filter
      (fun e => decide (e.1.dir = dir) && globMatch pattern.data e.1.fileName.data)).map
    (fun e => e.1)

/-- One iteration of the loop body of `batch_convert`: convert `md_file`
into `output_path / (stem + extension)` in the requested format. -/
def convertOne (md : MdEngine) (env : ChromeEnv) (now : Timestamp) (to_pdf : Bool)
    (include_headers : Bool) (output_path : String) (fs : FS) (md_file : PyPath) :
    Except ConvError PyPath × FS × List Event :=
  if to_pdf then
    convert_md_to_pdf md env now fs md_file (some ⟨output_path, md_file.stem, ".pdf"⟩)
      include_headers
  else
    convert_md_to_html md now fs md_file (some ⟨output_path, md_file.stem, ".html"⟩)
      include_headers

/-- The conversion loop of `batch_convert`: each file is converted in turn;
a success appends the returned path to `results`, an exception is caught,
logged and skipped. -/
def batchLoop (md : MdEngine) (env : ChromeEnv) (now : Timestamp) (to_pdf : Bool)
    (include_headers : Bool) (output_path : String) :
    FS → List PyPath → List PyPath × FS × List Event
  | fs, [] => ([], fs, [])
  | fs, f :: rest =>
    match convertOne md env now to_pdf include_headers output_path fs f with
    | (.ok r, fs1, ev1) =>
      let t := batchLoop md env now to_pdf include_headers output_path fs1 rest
      (r :: t.1, t.2.1, ev1 ++ t.2.2)
    | (.error _, fs1, ev1) =>
      let t := batchLoop md env now to_pdf include_headers output_path fs1 rest
      (t.1, t.2.1, ev1 ++ t.2.2)

/-- The per-file outcomes of the batch loop, one entry per matched file in
order: `some path` when that file's conversion returned, `none` when it
raised (and was caught). -/
def batchOutcomes (md : MdEngine) (env : ChromeEnv) (now : Timestamp) (to_pdf : Bool)
    (include_headers : Bool) (output_path : String) :
    FS → List PyPath → List (Option PyPath)
  | _, [] => []
  | fs, f :: rest =>
    match convertOne md env now to_pdf include_headers output_path fs f with
    | (.ok r, fs1, _) =>
      some r :: batchOutcomes md env now to_pdf include_headers output_path fs1 rest
    | (.error _, fs1, _) =>
      none :: batchOutcomes md env now to_pdf include_headers output_path fs1 rest

/-- Resolution of the output directory at the top of `batch_convert`:
unspecified means the input directory; an explicit directory is created
(with parents) if missing. -/
def batchStartFS (fs : FS) (output_dir : Option String) : FS :=
  match output_dir with
  | none => fs
  | some d => fs.mkdirParents d

/-- The batch driver `batch_convert(input_dir, output_dir, to_pdf, pattern,
include_headers)`. -/
def batch_convert (md : MdEngine) (env : ChromeEnv) (now : Timestamp) (fs : FS)
    (input_dir : String) (output_dir : Option String) (to_pdf : Bool)
    (pattern : String) (include_headers : Bool) :
    Except ConvError (List PyPath) × FS × List Event :=
  if input_dir ∈ fs.dirs then
    let fs1 := batchStartFS fs output_dir
    let output_path := output_dir.getD input_dir
    let md_files := fs1.glob input_dir pattern
    if md_files.isEmpty then (.ok [], fs1, [])
    else
      let t := batchLoop md env now to_pdf include_headers output_path fs1 md_files
      (.ok t.1, t.2.1, t.2.2)
  else (.error .inputDirNotFound, fs, [])

/-- The text written at a path (empty when the path is missing or not text);
used to state properties of the produced HTML document. -/
def writtenDoc (fs : FS) (p : PyPath) : String :=
  match fs.findFile p with
  | some (.text s) => s
  | _ => ""

/-! ### Substring occurrence counting -/

/-- Number of positions at which `pat` occurs as a contiguous substring of
`l` (occurrences at distinct start positions are counted separately). -/
def countOccs (pat : List Char) : List Char → Nat
  | [] => 0
  | c :: t => (if pat <+: c :: t then 1 else 0) + countOccs pat t

/-- No nonempty proper prefix of `pat` is a suffix of `a`; then an occurrence
of `pat` in `a ++ b` cannot start inside `a` and end inside `b`. -/
def noSpanL (pat a : List Char) : Prop :=
  ∀ k < pat.length, 0 < k → ¬ (pat.take k <:+ a)

/-- No nonempty proper suffix of `pat` is a prefix of `b`; then an occurrence
of `pat` in `a ++ b` cannot start inside `a` and end inside `b`. -/
def noSpanR (pat b : List Char) : Prop :=
  ∀ k < pat.length, 0 < k → ¬ (pat.drop k <+: b)

instance (pat a : List Char) : Decidable (noSpanL pat a) := by
  unfold noSpanL
  infer_instance

instance (pat b : List Char) : Decidable (noSpanR pat b) := by
  unfold noSpanR
  infer_instance

theorem prefix_append_cases {pat x b : List Char} (h : pat <+: x ++ b) :
    pat <+: x ∨
      (x.length < pat.length ∧ pat.take x.length = x ∧ pat.drop x.length <+: b) := by
  rcases le_or_lt pat.length x.length with hle | hlt
  · left
    have h1 := List.prefix_iff_eq_take.mp h
    rw [List.take_append_eq_append_take, Nat.sub_eq_zero_of_le hle, List.take_zero,
      List.append_nil] at h1
    exact List.prefix_iff_eq_take.mpr h1
  · right
    obtain ⟨t, ht⟩ := h
    refine ⟨hlt, ?_, ?_⟩
    · have := congrArg (List.take x.length) ht
      rw [List.take_left, List.take_append_eq_append_take,
        Nat.sub_eq_zero_of_le (Nat.le_of_lt hlt), List.take_zero, List.append_nil] at this
      exact this
    · have := congrArg (List.drop x.length) ht
      rw [List.drop_left, List.drop_append_eq_append_drop,
        Nat.sub_eq_zero_of_le (Nat.le_of_lt hlt), List.drop_zero] at this
      exact ⟨_, this⟩

theorem countOccs_append_left {pat a : List Char} (h : noSpanL pat a) (b : List Char) :
    countOccs pat (a ++ b) = countOccs pat a + countOccs pat b := by
  induction a with
  | nil => simp [countOccs]
  | cons c a ih =>
    have ha : noSpanL pat a := fun k hk hk0 hsuf =>
      h k hk hk0 (hsuf.trans (List.suffix_cons c a))
    have key : (pat <+: c :: (a ++ b)) ↔ (pat <+: c :: a) := by
      constructor
      · intro hp
        rcases prefix_append_cases (x := c :: a) (List.cons_append c a b ▸ hp) with h1 | h1
        · exact h1
        · refine absurd ?_ (h (c :: a).length h1.1 (Nat.succ_pos _))
          rw [h1.2.1]
      · intro hp
        exact hp.trans (List.cons_append c a b ▸ List.prefix_append (c :: a) b)
    show (if pat <+: c :: (a ++ b) then 1 else 0) + countOccs pat (a ++ b) =
      ((if pat <+: c :: a then 1 else 0) + countOccs pat a) + countOccs pat b
    rw [if_congr key rfl rfl, ih ha]
    omega

theorem countOccs_append_right {pat b : List Char} (h : noSpanR pat b) (a : List Char) :
    countOccs pat (a ++ b) = countOccs pat a + countOccs pat b := by
  induction a with
  | nil => simp [countOccs]
  | cons c a ih =>
    have key : (pat <+: c :: (a ++ b)) ↔ (pat <+: c :: a) := by
      constructor
      · intro hp
        rcases prefix_append_cases (x := c :: a) (List.cons_append c a b ▸ hp) with h1 | h1
        · exact h1
        · exact absurd h1.2.2 (h (c :: a).length h1.1 (Nat.succ_pos _))
      · intro hp
        exact hp.trans (List.cons_append c a b ▸ List.prefix_append (c :: a) b)
    show (if pat <+: c :: (a ++ b) then 1 else 0) + countOccs pat (a ++ b) =
      ((if pat <+: c :: a then 1 else 0) + countOccs pat a) + countOccs pat b
    rw [if_congr key rfl rfl, ih]
    omega

theorem countOccs_eq_zero {pat l : List Char} (h : ¬ pat <:+: l) : countOccs pat l = 0 := by
  induction l with
  | nil => rfl
  | cons c t ih =>
    have h1 : ¬ pat <+: c :: t := fun hp => h hp.isInfix
    have h2 : ¬ pat <:+: t := fun hi => h (hi.trans (List.suffix_cons c t).isInfix)
    simp [countOccs, h1, ih h2]

theorem noSpanR_extend {pat y : List Char} (hy : noSpanR pat y)
    (hlen : pat.length ≤ y.length + 1) (z : List Char) : noSpanR pat (y ++ z) := by
  intro k hk hk0 hp
  have hlen2 : (pat.drop k).length ≤ y.length := by
    rw [List.length_drop]
    omega
  rcases prefix_append_cases hp with h1 | h1
  · exact hy k hk hk0 h1
  · omega

/-! ### Character-level facts about Python title-casing -/

theorem char_toNat_ofNat_of_lt {n : Nat} (h : n < 55296) : (Char.ofNat n).toNat = n := by
  unfold Char.ofNat
  rw [dif_pos (Or.inl h)]
  rfl

theorem char_isUpper_iff {c : Char} : c.isUpper = true ↔ 65 ≤ c.toNat ∧ c.toNat ≤ 90 := by
  simp only [Char.isUpper, Bool.and_eq_true, decide_eq_true_eq, UInt32.le_def, BitVec.le_def]
  exact Iff.rfl

theorem char_isLower_iff {c : Char} : c.isLower = true ↔ 97 ≤ c.toNat ∧ c.toNat ≤ 122 := by
  simp only [Char.isLower, Bool.and_eq_true, decide_eq_true_eq, UInt32.le_def, BitVec.le_def]
  exact Iff.rfl

theorem char_isAlpha_iff {c : Char} :
    c.isAlpha = true ↔ (65 ≤ c.toNat ∧ c.toNat ≤ 90) ∨ (97 ≤ c.toNat ∧ c.toNat ≤ 122) := by
  simp only [Char.isAlpha, Bool.or_eq_true, char_isUpper_iff, char_isLower_iff]

theorem char_toUpper_eq (c : Char) :
    c.toUpper = if 97 ≤ c.toNat ∧ c.toNat ≤ 122 then Char.ofNat (c.toNat - 32) else c := rfl

theorem char_toLower_eq (c : Char) :
    c.toLower = if 65 ≤ c.toNat ∧ c.toNat ≤ 90 then Char.ofNat (c.toNat + 32) else c := rfl

theorem isAlpha_toUpper (c : Char) : c.toUpper.isAlpha = c.isAlpha := by
  rw [char_toUpper_eq]
  by_cases h : 97 ≤ c.toNat ∧ c.toNat ≤ 122
  · rw [if_pos h]
    have h1 : (Char.ofNat (c.toNat - 32)).toNat = c.toNat - 32 :=
      char_toNat_ofNat_of_lt (by omega)
    have h2 : (Char.ofNat (c.toNat - 32)).isAlpha = true := by
      rw [char_isAlpha_iff, h1]
      omega
    have h3 : c.isAlpha = true := by
      rw [char_isAlpha_iff]
      omega
    rw [h2, h3]
  · rw [if_neg h]

theorem isAlpha_toLower (c : Char) : c.toLower.isAlpha = c.isAlpha := by
  rw [char_toLower_eq]
  by_cases h : 65 ≤ c.toNat ∧ c.toNat ≤ 90
  · rw [if_pos h]
    have h1 : (Char.ofNat (c.toNat + 32)).toNat = c.toNat + 32 :=
      char_toNat_ofNat_of_lt (by omega)
    have h2 : (Char.ofNat (c.toNat + 32)).isAlpha = true := by
      rw [char_isAlpha_iff, h1]
      omega
    have h3 : c.isAlpha = true := by
      rw [char_isAlpha_iff]
      omega
    rw [h2, h3]
  · rw [if_neg h]

theorem isLower_toUpper (c : Char) : c.toUpper.isLower = false := by
  rw [char_toUpper_eq]
  by_cases h : 97 ≤ c.toNat ∧ c.toNat ≤ 122
  · rw [if_pos h]
    have h1 : (Char.ofNat (c.toNat - 32)).toNat = c.toNat - 32 :=
      char_toNat_ofNat_of_lt (by omega)
    rw [← Bool.not_eq_true, char_isLower_iff, h1]
    omega
  · rw [if_neg h, ← Bool.not_eq_true, char_isLower_iff]
    omega

theorem isLower_isAlpha {c : Char} (h : c.isLower = true) : c.isAlpha = true := by
  rw [char_isAlpha_iff]
  rw [char_isLower_iff] at h
  omega

/-- In a title-cased string, a lowercase letter is never preceded by a
non-alphabetic character: every adjacent pair has an alphabetic first
component or a non-lowercase second component. -/
theorem titleAux_pair {l : List Char} : ∀ {prev : Bool} {x y : Char},
    [x, y] <:+: titleAux prev l → x.isAlpha = true ∨ y.isLower = false := by
  induction l with
  | nil =>
    intro prev x y h
    have := h.length_le
    simp [titleAux] at this
  | cons c t ih =>
    intro prev x y h
    rw [show titleAux prev (c :: t) =
        (if c.isAlpha then (if prev then c.toLower else c.toUpper) else c) ::
          titleAux c.isAlpha t from rfl] at h
    rcases List.infix_cons_iff.mp h with hp | hi
    · obtain ⟨r, hr⟩ := hp
      rw [List.cons_append, List.cons_append, List.nil_append] at hr
      injection hr with hx hr2
      by_cases hc : c.isAlpha = true
      · left
        rw [hx, if_pos hc]
        by_cases hprev : prev = true
        · rw [if_pos hprev, isAlpha_toLower]
          exact hc
        · rw [if_neg hprev, isAlpha_toUpper]
          exact hc
      · right
        rw [Bool.not_eq_true] at hc
        cases t with
        | nil => simp [titleAux] at hr2
        | cons c2 t2 =>
          rw [show titleAux c.isAlpha (c2 :: t2) =
              (if c2.isAlpha then (if c.isAlpha then c2.toLower else c2.toUpper) else c2) ::
                titleAux c2.isAlpha t2 from rfl] at hr2
          injection hr2 with hy _
          by_cases hc2 : c2.isAlpha = true
          · simp only [hc, hc2, if_true, if_false, Bool.false_eq_true] at hy
            rw [hy, isLower_toUpper]
          · simp only [hc2, Bool.false_eq_true, if_false] at hy
            rw [← Bool.not_eq_true, hy]
            intro hlow
            rw [Bool.not_eq_true] at hc2
            rw [isLower_isAlpha hlow] at hc2
            simp at hc2
    · exact ih hi

/-- A pattern containing a non-alphabetic character immediately followed by a
lowercase letter never occurs in a title-cased string. -/
theorem titleAux_no_occurrence {pat : List Char} {x y : Char} {p q : List Char}
    (hsplit : pat = p ++ x :: y :: q) (hx : x.isAlpha = false) (hy : y.isLower = true)
    (prev : Bool) (l : List Char) : ¬ pat <:+: titleAux prev l := by
  intro hinf
  have hpair : [x, y] <:+: titleAux prev l := by
    refine List.IsInfix.trans ?_ hinf
    rw [hsplit]
    exact ⟨p, q, by simp⟩
  rcases titleAux_pair hpair with h | h
  · rw [hx] at h
    simp at h
  · rw [hy] at h
    simp at h

theorem countOccs_titleAux {pat : List Char} {x y : Char} {p q : List Char}
    (hsplit : pat = p ++ x :: y :: q) (hx : x.isAlpha = false) (hy : y.isLower = true)
    (prev : Bool) (l : List Char) : countOccs pat (titleAux prev l) = 0 :=
  countOccs_eq_zero (titleAux_no_occurrence hsplit hx hy prev l)

theorem countOccs_derivedTitle {pat : List Char} {x y : Char} {p q : List Char}
    (hsplit : pat = p ++ x :: y :: q) (hx : x.isAlpha = false) (hy : y.isLower = true)
    (stem : String) : countOccs pat (derivedTitle stem).data = 0 :=
  countOccs_titleAux hsplit hx hy false (underscoresToSpaces stem).data

/-! ### The timestamp contains no alphabetic character -/

theorem digitChar_not_alpha {d : Nat} (h : d < 10) : (Nat.digitChar d).isAlpha = false := by
  have hall : ∀ e, e < 10 → (Nat.digitChar e).isAlpha = false := by decide
  exact hall d h

theorem mem_pad2_not_alpha {n : Nat} {c : Char} (h : c ∈ pad2 n) : c.isAlpha = false := by
  simp only [pad2, List.mem_cons, List.not_mem_nil, or_false] at h
  rcases h with h | h <;> subst h <;> exact digitChar_not_alpha (Nat.mod_lt _ (by omega))

theorem mem_pad4_not_alpha {n : Nat} {c : Char} (h : c ∈ pad4 n) : c.isAlpha = false := by
  simp only [pad4, List.mem_cons, List.not_mem_nil, or_false] at h
  rcases h with h | h | h | h <;> subst h <;>
    exact digitChar_not_alpha (Nat.mod_lt _ (by omega))

theorem formatTimestamp_not_alpha (t : Timestamp) :
    ∀ c ∈ (formatTimestamp t).data, c.isAlpha = false := by
  intro c hc
  have hc2 : c ∈ pad4 t.year ++ '-' :: (pad2 t.month ++ '-' :: (pad2 t.day ++
      ' ' :: (pad2 t.hour ++ ':' :: pad2 t.minute))) := hc
  rcases List.mem_append.mp hc2 with h | h
  · exact mem_pad4_not_alpha h
  rcases List.mem_cons.mp h with h | h
  · subst h
    decide
  rcases List.mem_append.mp h with h | h
  · exact mem_pad2_not_alpha h
  rcases List.mem_cons.mp h with h | h
  · subst h
    decide
  rcases List.mem_append.mp h with h | h
  · exact mem_pad2_not_alpha h
  rcases List.mem_cons.mp h with h | h
  · subst h
    decide
  rcases List.mem_append.mp h with h | h
  · exact mem_pad2_not_alpha h
  rcases List.mem_cons.mp h with h | h
  · subst h
    decide
  exact mem_pad2_not_alpha h

/-- A pattern starting with an alphabetic character does not occur in a list
of non-alphabetic characters. -/
theorem countOccs_of_no_alpha {pat l : List Char} {p0 : Char} {rest : List Char}
    (hpat : pat = p0 :: rest) (halpha : p0.isAlpha = true)
    (hl : ∀ c ∈ l, c.isAlpha = false) : countOccs pat l = 0 := by
  apply countOccs_eq_zero
  intro hinf
  have hmem : p0 ∈ l := hinf.sublist.subset (by rw [hpat]; exact List.mem_cons_self p0 rest)
  rw [hl p0 hmem] at halpha
  simp at halpha

/-! ### Occurrence counts of the header and footer marker strings -/

/-- The header marker string "Generated on". -/
def genPat : List Char := "Generated on".data

/-- The footer attribution marker string. -/
def footPat : List Char := "Converted with Universal Markdown Converter".data

theorem genPat_front (stem : String) (rest : List Char) :
    countOccs genPat (htmlTpl0.data ++ ((derivedTitle stem).data ++ (htmlTpl1.data ++ (cssChunk0.data ++ (cssChunk1.data ++ (cssChunk2.data ++ (cssChunk3.data ++ (cssChunk4.data ++ (cssChunk5.data ++ (cssChunk6.data ++ (cssChunk7.data ++ (htmlTpl2.data ++ rest)))))))))))) = countOccs genPat rest := by
  rw [countOccs_append_left (show noSpanL genPat htmlTpl0.data from by decide)]
  rw [countOccs_append_right (noSpanR_extend
    (show noSpanR genPat htmlTpl1.data from by decide)
    (show genPat.length ≤ htmlTpl1.data.length + 1 from by decide) _)]
  rw [countOccs_derivedTitle
    (show genPat = "Generated".data ++ ' ' :: 'o' :: "n".data from by decide)
    (by decide) (by decide) stem]
  rw [countOccs_append_left (show noSpanL genPat htmlTpl1.data from by decide)]
  rw [countOccs_append_left (show noSpanL genPat cssChunk0.data from by decide)]
  rw [countOccs_append_left (show noSpanL genPat cssChunk1.data from by decide)]
  rw [countOccs_append_left (show noSpanL genPat cssChunk2.data from by decide)]
  rw [countOccs_append_left (show noSpanL genPat cssChunk3.data from by decide)]
  rw [countOccs_append_left (show noSpanL genPat cssChunk4.data from by decide)]
  rw [countOccs_append_left (show noSpanL genPat cssChunk5.data from by decide)]
  rw [countOccs_append_left (show noSpanL genPat cssChunk6.data from by decide)]
  rw [countOccs_append_left (show noSpanL genPat cssChunk7.data from by decide)]
  rw [countOccs_append_left (show noSpanL genPat htmlTpl2.data from by decide)]
  rw [show countOccs genPat htmlTpl0.data = 0 from by decide,
    show countOccs genPat htmlTpl1.data = 0 from by decide,
    show countOccs genPat cssChunk0.data = 0 from by decide,
    show countOccs genPat cssChunk1.data = 0 from by decide,
    show countOccs genPat cssChunk2.data = 0 from by decide,
    show countOccs genPat cssChunk3.data = 0 from by decide,
    show countOccs genPat cssChunk4.data = 0 from by decide,
    show countOccs genPat cssChunk5.data = 0 from by decide,
    show countOccs genPat cssChunk6.data = 0 from by decide,
    show countOccs genPat cssChunk7.data = 0 from by decide,
    show countOccs genPat htmlTpl2.data = 0 from by decide]
  omega

theorem footPat_front (stem : String) (rest : List Char) :
    countOccs footPat (htmlTpl0.data ++ ((derivedTitle stem).data ++ (htmlTpl1.data ++ (cssChunk0.data ++ (cssChunk1.data ++ (cssChunk2.data ++ (cssChunk3.data ++ (cssChunk4.data ++ (cssChunk5.data ++ (cssChunk6.data ++ (cssChunk7.data ++ (htmlTpl2.data ++ rest)))))))))))) = countOccs footPat rest := by
  rw [countOccs_append_left (show noSpanL footPat htmlTpl0.data from by decide)]
  rw [← List.append_assoc htmlTpl1.data cssChunk0.data]
  rw [countOccs_append_right (noSpanR_extend
    (show noSpanR footPat (htmlTpl1.data ++ cssChunk0.data) from by decide)
    (show footPat.length ≤ (htmlTpl1.data ++ cssChunk0.data).length + 1 from by decide) _)]
  rw [List.append_assoc htmlTpl1.data cssChunk0.data]
  rw [countOccs_derivedTitle
    (show footPat = "Converted".data ++ ' ' :: 'w' :: "ith Universal Markdown Converter".data
      from by decide)
    (by decide) (by decide) stem]
  rw [countOccs_append_left (show noSpanL footPat htmlTpl1.data from by decide)]
  rw [countOccs_append_left (show noSpanL footPat cssChunk0.data from by decide)]
  rw [countOccs_append_left (show noSpanL footPat cssChunk1.data from by decide)]
  rw [countOccs_append_left (show noSpanL footPat cssChunk2.data from by decide)]
  rw [countOccs_append_left (show noSpanL footPat cssChunk3.data from by decide)]
  rw [countOccs_append_left (show noSpanL footPat cssChunk4.data from by decide)]
  rw [countOccs_append_left (show noSpanL footPat cssChunk5.data from by decide)]
  rw [countOccs_append_left (show noSpanL footPat cssChunk6.data from by decide)]
  rw [countOccs_append_left (show noSpanL footPat cssChunk7.data from by decide)]
  rw [countOccs_append_left (show noSpanL footPat htmlTpl2.data from by decide)]
  rw [show countOccs footPat htmlTpl0.data = 0 from by decide,
    show countOccs footPat htmlTpl1.data = 0 from by decide,
    show countOccs footPat cssChunk0.data = 0 from by decide,
    show countOccs footPat cssChunk1.data = 0 from by decide,
    show countOccs footPat cssChunk2.data = 0 from by decide,
    show countOccs footPat cssChunk3.data = 0 from by decide,
    show countOccs footPat cssChunk4.data = 0 from by decide,
    show countOccs footPat cssChunk5.data = 0 from by decide,
    show countOccs footPat cssChunk6.data = 0 from by decide,
    show countOccs footPat cssChunk7.data = 0 from by decide,
    show countOccs footPat htmlTpl2.data = 0 from by decide]
  omega

theorem genPat_tail_false (body : String) :
    countOccs genPat (htmlTpl3.data ++ (body.data ++ (htmlTpl4.data ++ htmlTpl5.data))) =
      countOccs genPat body.data := by
  rw [countOccs_append_left (show noSpanL genPat htmlTpl3.data from by decide)]
  rw [countOccs_append_right (show noSpanR genPat (htmlTpl4.data ++ htmlTpl5.data) from by decide)]
  rw [show countOccs genPat htmlTpl3.data = 0 from by decide,
    show countOccs genPat (htmlTpl4.data ++ htmlTpl5.data) = 0 from by decide]
  omega

theorem footPat_tail_false (body : String) :
    countOccs footPat (htmlTpl3.data ++ (body.data ++ (htmlTpl4.data ++ htmlTpl5.data))) =
      countOccs footPat body.data := by
  rw [countOccs_append_left (show noSpanL footPat htmlTpl3.data from by decide)]
  rw [countOccs_append_right (show noSpanR footPat (htmlTpl4.data ++ htmlTpl5.data) from by decide)]
  rw [show countOccs footPat htmlTpl3.data = 0 from by decide,
    show countOccs footPat (htmlTpl4.data ++ htmlTpl5.data) = 0 from by decide]
  omega

theorem genPat_tail_true (stem : String) (now : Timestamp) (body : String) :
    countOccs genPat (hdrTpl0.data ++ ((derivedTitle stem).data ++ (hdrTpl1.data ++ ((formatTimestamp now).data ++ (hdrTpl2.data ++ (htmlTpl3.data ++ (body.data ++ (htmlTpl4.data ++ (footerTpl.data ++ htmlTpl5.data))))))))) = countOccs genPat body.data + 1 := by
  rw [countOccs_append_left (show noSpanL genPat hdrTpl0.data from by decide)]
  rw [countOccs_append_right (noSpanR_extend
    (show noSpanR genPat hdrTpl1.data from by decide)
    (show genPat.length ≤ hdrTpl1.data.length + 1 from by decide) _)]
  rw [countOccs_derivedTitle
    (show genPat = "Generated".data ++ ' ' :: 'o' :: "n".data from by decide)
    (by decide) (by decide) stem]
  rw [countOccs_append_left (show noSpanL genPat hdrTpl1.data from by decide)]
  rw [countOccs_append_right (noSpanR_extend
    (show noSpanR genPat hdrTpl2.data from by decide)
    (show genPat.length ≤ hdrTpl2.data.length + 1 from by decide) _)]
  rw [countOccs_of_no_alpha (show genPat = 'G' :: "enerated on".data from by decide)
    (by decide) (formatTimestamp_not_alpha now)]
  rw [countOccs_append_left (show noSpanL genPat hdrTpl2.data from by decide)]
  rw [countOccs_append_left (show noSpanL genPat htmlTpl3.data from by decide)]
  rw [countOccs_append_right (show noSpanR genPat (htmlTpl4.data ++ (footerTpl.data ++ htmlTpl5.data)) from by decide)]
  rw [show countOccs genPat hdrTpl0.data = 0 from by decide,
    show countOccs genPat hdrTpl1.data = 1 from by decide,
    show countOccs genPat hdrTpl2.data = 0 from by decide,
    show countOccs genPat htmlTpl3.data = 0 from by decide,
    show countOccs genPat (htmlTpl4.data ++ (footerTpl.data ++ htmlTpl5.data)) = 0 from by decide]
  omega

theorem footPat_tail_true (stem : String) (now : Timestamp) (body : String) :
    countOccs footPat (hdrTpl0.data ++ ((derivedTitle stem).data ++ (hdrTpl1.data ++ ((formatTimestamp now).data ++ (hdrTpl2.data ++ (htmlTpl3.data ++ (body.data ++ (htmlTpl4.data ++ (footerTpl.data ++ htmlTpl5.data))))))))) = countOccs footPat body.data + 1 := by
  rw [countOccs_append_left (show noSpanL footPat hdrTpl0.data from by decide)]
  rw [countOccs_append_right (noSpanR_extend
    (show noSpanR footPat hdrTpl1.data from by decide)
    (show footPat.length ≤ hdrTpl1.data.length + 1 from by decide) _)]
  rw [countOccs_derivedTitle
    (show footPat = "Converted".data ++ ' ' :: 'w' :: "ith Universal Markdown Converter".data
      from by decide)
    (by decide) (by decide) stem]
  rw [countOccs_append_left (show noSpanL footPat hdrTpl1.data from by decide)]
  rw [countOccs_append_right (noSpanR_extend
    (show noSpanR footPat hdrTpl2.data from by decide)
    (show footPat.length ≤ hdrTpl2.data.length + 1 from by decide) _)]
  rw [countOccs_of_no_alpha
    (show footPat = 'C' :: "onverted with Universal Markdown Converter".data from by decide)
    (by decide) (formatTimestamp_not_alpha now)]
  rw [countOccs_append_left (show noSpanL footPat hdrTpl2.data from by decide)]
  rw [countOccs_append_left (show noSpanL footPat htmlTpl3.data from by decide)]
  rw [countOccs_append_right (show noSpanR footPat (htmlTpl4.data ++ (footerTpl.data ++ htmlTpl5.data)) from by decide)]
  rw [show countOccs footPat hdrTpl0.data = 0 from by decide,
    show countOccs footPat hdrTpl1.data = 0 from by decide,
    show countOccs footPat hdrTpl2.data = 0 from by decide,
    show countOccs footPat htmlTpl3.data = 0 from by decide,
    show countOccs footPat (htmlTpl4.data ++ (footerTpl.data ++ htmlTpl5.data)) = 1 from by decide]
  omega


/-! ### Filesystem lookup facts -/

theorem find_map_set {l : List (PyPath × FVal)} {p : PyPath} (v : FVal)
    (h : l.any (fun e => decide (e.1 = p)) = true) :
    (l.map (fun e => if e.1 = p then (p, v) else e)).find? (fun e => decide (e.1 = p)) =
      some (p, v) := by
  induction l with
  | nil => simp at h
  | cons e t ih =>
    by_cases he : e.1 = p
    · simp [he]
    · rw [List.any_cons] at h
      simp only [he, decide_False, Bool.false_or] at h
      simp only [List.map_cons, if_neg he]
      rw [List.find?_cons_of_neg _ (by simp [he])]
      exact ih h

theorem find_append_not {l : List (PyPath × FVal)} {p : PyPath} (v : FVal)
    (h : l.any (fun e => decide (e.1 = p)) = false) :
    (l ++ [(p, v)]).find? (fun e => decide (e.1 = p)) = some (p, v) := by
  induction l with
  | nil => simp
  | cons e t ih =>
    rw [List.any_cons] at h
    obtain ⟨h1, h2⟩ := Bool.or_eq_false_iff.mp h
    have he : ¬ e.1 = p := of_decide_eq_false h1
    simp only [List.cons_append]
    rw [List.find?_cons_of_neg _ (by simp [he])]
    exact ih h2

theorem FS.findFile_setFile_self (fs : FS) (p : PyPath) (v : FVal) :
    (fs.setFile p v).findFile p = some v := by
  unfold FS.setFile FS.findFile
  by_cases h : fs.files.any (fun e => decide (e.1 = p)) = true
  · simp only [h, if_true]
    rw [find_map_set v h]
    rfl
  · have h2 : fs.files.any (fun e => decide (e.1 = p)) = false := by
      rcases Bool.eq_false_or_eq_true (fs.files.any (fun e => decide (e.1 = p))) with hh | hh
      · exact absurd hh h
      · exact hh
    rw [if_neg h]
    rw [find_append_not v h2]
    rfl

theorem writtenDoc_setFile_text (fs : FS) (p : PyPath) (s : String) :
    writtenDoc (fs.setFile p (.text s)) p = s := by
  simp [writtenDoc, FS.findFile_setFile_self]

/-! ### Characterization of a successful HTML conversion -/

theorem convert_md_to_html_run (md : MdEngine) (now : Timestamp) (fs : FS)
    (input_file : PyPath) (output_file : Option PyPath) (include_headers : Bool) (s : String)
    (hav : md.available = true) (hread : fs.findFile input_file = some (.text s)) :
    convert_md_to_html md now fs input_file output_file include_headers =
      (.ok (output_file.getD (input_file.withSuffix ".html")),
       fs.setFile (output_file.getD (input_file.withSuffix ".html"))
         (.text (html_template_format (derivedTitle input_file.stem) css_template
            (md.convert s)
            (if include_headers then
              create_header_section (derivedTitle input_file.stem) (formatTimestamp now)
             else "")
            (if include_headers then create_footer_section else ""))),
       [.readF input_file,
        .writeF (output_file.getD (input_file.withSuffix ".html"))
          (html_template_format (derivedTitle input_file.stem) css_template
            (md.convert s)
            (if include_headers then
              create_header_section (derivedTitle input_file.stem) (formatTimestamp now)
             else "")
            (if include_headers then create_footer_section else ""))]) := by
  unfold convert_md_to_html
  rw [hav, hread]
  simp only [FS.existsFile, hread, Option.isSome_some]
  rfl

/-! ### Marker counts over the fully assembled document -/

theorem genPat_full_html (stem : String) (now : Timestamp) (body : String) (flag : Bool) :
    countOccs genPat (html_template_format (derivedTitle stem) css_template body
        (if flag then create_header_section (derivedTitle stem) (formatTimestamp now) else "")
        (if flag then create_footer_section else "")).data
      = countOccs genPat body.data + (if flag then 1 else 0) := by
  cases flag with
  | false =>
    simp only [Bool.false_eq_true, if_false, html_template_format, css_template,
      String.data_append, List.append_assoc, show ("" : String).data = [] from rfl,
      List.nil_append]
    rw [genPat_front, genPat_tail_false]
    omega
  | true =>
    simp only [if_true, html_template_format, css_template, create_header_section,
      create_footer_section, String.data_append, List.append_assoc]
    rw [genPat_front, genPat_tail_true]

theorem footPat_full_html (stem : String) (now : Timestamp) (body : String) (flag : Bool) :
    countOccs footPat (html_template_format (derivedTitle stem) css_template body
        (if flag then create_header_section (derivedTitle stem) (formatTimestamp now) else "")
        (if flag then create_footer_section else "")).data
      = countOccs footPat body.data + (if flag then 1 else 0) := by
  cases flag with
  | false =>
    simp only [Bool.false_eq_true, if_false, html_template_format, css_template,
      String.data_append, List.append_assoc, show ("" : String).data = [] from rfl,
      List.nil_append]
    rw [footPat_front, footPat_tail_false]
    omega
  | true =>
    simp only [if_true, html_template_format, css_template, create_header_section,
      create_footer_section, String.data_append, List.append_assoc]
    rw [footPat_front, footPat_tail_true]

/-! ### Witness fixtures: a tiny markdown engine, clock and filesystem -/

/-- An available markdown engine whose rendering is the identity. -/
def mdW : MdEngine := ⟨true, fun s => s⟩

/-- An available markdown engine that wraps the source in a paragraph, as the
real engine does for plain text. -/
def mdCE : MdEngine := ⟨true, fun s => "<p>" ++ s ++ "</p>"⟩

/-- An unavailable markdown engine. -/
def mdNone : MdEngine := ⟨false, fun s => s⟩

/-- A fixed clock value. -/
def nowW : Timestamp := ⟨2026, 10, 12, 9, 30⟩

/-- A concrete input file path. -/
def inW : PyPath := ⟨"docs", "my_notes", ".md"⟩

/-- A filesystem with one small readable markdown file. -/
def fsW : FS := ⟨["docs"], [(inW, .text "hello")]⟩

/-- A filesystem whose input file mentions the header marker text. -/
def fsCE : FS := ⟨["docs"], [(inW, .text "Generated on")]⟩

/-- A browser environment in which every candidate attempt fails with a
caught exception. -/
def envFailW : ChromeEnv := ⟨fun _ _ _ => (.exnCaught, .exnCaught)⟩

/-- A browser environment in which every candidate succeeds. -/
def envOkW : ChromeEnv := ⟨fun _ _ _ => (.versionOk, .exitCode 0)⟩

/-- C3 (amended): on a successful run of convert_md_to_html, with
include_headers = false the written document contains exactly as many
occurrences of "Generated on" and of the footer attribution text
"Converted with Universal Markdown Converter" as the converted markdown body
itself contains — the header and footer blocks are empty strings and the
converter contributes no occurrence; with include_headers = true the document
contains exactly one more occurrence of each than the body (the one in the
header block resp. the footer block). -/
theorem c3_header_footer_markers (md : MdEngine) (now : Timestamp) (fs : FS)
    (input_file : PyPath) (output_file : Option PyPath) (include_headers : Bool) (s : String)
    (hav : md.available = true) (hread : fs.findFile input_file = some (.text s))
    {r : PyPath} {fs2 : FS} {ev : List Event}
    (hrun : convert_md_to_html md now fs input_file output_file include_headers =
      (.ok r, fs2, ev)) :
    countOccs genPat (writtenDoc fs2 r).data
      = countOccs genPat (md.convert s).data + (if include_headers then 1 else 0) ∧
    countOccs footPat (writtenDoc fs2 r).data
      = countOccs footPat (md.convert s).data + (if include_headers then 1 else 0) := by
  rw [convert_md_to_html_run md now fs input_file output_file include_headers s hav hread]
    at hrun
  rw [Prod.mk.injEq, Prod.mk.injEq, Except.ok.injEq] at hrun
  obtain ⟨h1, h2, h3⟩ := hrun
  subst h1
  subst h2
  rw [writtenDoc_setFile_text]
  exact ⟨genPat_full_html input_file.stem now (md.convert s) include_headers,
    footPat_full_html input_file.stem now (md.convert s) include_headers⟩

/-- Witness for C3 (amended), instantiated at a concrete engine, filesystem
and timestamp with include_headers = true: the document holds the marker
exactly once. -/
theorem c3_header_footer_markers_witness :
    countOccs genPat (writtenDoc
        (convert_md_to_html mdW nowW fsW inW none true).2.1
        ⟨"docs", "my_notes", ".html"⟩).data = 1 := by
  have h := @c3_header_footer_markers mdW nowW fsW inW none true "hello" rfl rfl
    ⟨"docs", "my_notes", ".html"⟩
    (convert_md_to_html mdW nowW fsW inW none true).2.1
    (convert_md_to_html mdW nowW fsW inW none true).2.2
    rfl
  exact h.1.trans (by decide)

/-- Counterexample to C3 as literally stated: for the input file whose text
is "Generated on" (rendered by the engine to a paragraph containing it),
conversion with include_headers = false yields a document that does contain
"Generated on", so "the output contains no Generated on text" fails. -/
theorem c3_counterexample :
    ¬ countOccs genPat (writtenDoc
        (convert_md_to_html mdCE nowW fsCE inW none false).2.1
        ⟨"docs", "my_notes", ".html"⟩).data = 0 := by
  have hrun := convert_md_to_html_run mdCE nowW fsCE inW none false "Generated on" rfl rfl
  rw [hrun]
  show ¬ countOccs genPat (writtenDoc
      (fsCE.setFile (PyPath.withSuffix inW ".html")
        (.text (html_template_format (derivedTitle inW.stem) css_template
          (mdCE.convert "Generated on")
          (if false then
            create_header_section (derivedTitle inW.stem) (formatTimestamp nowW)
           else "")
          (if false then create_footer_section else ""))))
      ⟨"docs", "my_notes", ".html"⟩).data = 0
  rw [show (PyPath.withSuffix inW ".html") = ⟨"docs", "my_notes", ".html"⟩ from rfl]
  rw [writtenDoc_setFile_text]
  rw [genPat_full_html]
  decide

/-! ### Extraction of the title element from the document -/

/-- Split a character list at the first occurrence of `pat`, returning the
part before the occurrence and the part after it. -/
def findSplit (pat : List Char) : List Char → Option (List Char × List Char)
  | [] => if pat <+: ([] : List Char) then some ([], []) else none
  | c :: t =>
    if pat <+: c :: t then some ([], (c :: t).drop pat.length)
    else (findSplit pat t).map (fun q => (c :: q.1, q.2))

/-- The pattern does not overlap itself: no nonempty proper suffix equals the
prefix of the same length. -/
def borderFree (pat : List Char) : Prop :=
  ∀ j < pat.length, 0 < j → pat.drop j ≠ pat.take (pat.length - j)

instance (pat : List Char) : Decidable (borderFree pat) := by
  unfold borderFree
  infer_instance

theorem findSplit_spec {pat A : List Char} (B : List Char) (hne : pat ≠ [])
    (hbf : borderFree pat) (hA : ¬ pat <:+: A) :
    findSplit pat (A ++ pat ++ B) = some (A, B) := by
  induction A with
  | nil =>
    cases hp : pat with
    | nil => exact absurd hp hne
    | cons p0 pr =>
      show (if (p0 :: pr) <+: p0 :: (pr ++ B) then
          some (([] : List Char), (p0 :: (pr ++ B)).drop (p0 :: pr).length)
        else (findSplit (p0 :: pr) (pr ++ B)).map (fun q => (p0 :: q.1, q.2))) = some ([], B)
      rw [if_pos (by exact List.prefix_append (p0 :: pr) B)]
      rw [show (p0 :: (pr ++ B)) = (p0 :: pr) ++ B from rfl, List.drop_left]
  | cons a A ih =>
    have hA2 : ¬ pat <:+: A := fun hi => hA (List.infix_cons_iff.mpr (Or.inr hi))
    have hcond : ¬ pat <+: a :: (A ++ pat ++ B) := by
      intro hp
      have hp2 : pat <+: (a :: A) ++ (pat ++ B) := by
        simpa using hp
      rcases prefix_append_cases hp2 with h1 | ⟨hlt, htake, hdrop⟩
      · exact hA h1.isInfix
      · rcases prefix_append_cases hdrop with h2 | ⟨hlt2, _, _⟩
        · have h3 := List.prefix_iff_eq_take.mp h2
          rw [List.length_drop] at h3
          exact hbf (a :: A).length hlt (Nat.succ_pos _) h3
        · rw [List.length_drop] at hlt2
          omega
    show (if pat <+: a :: (A ++ pat ++ B) then
        some (([] : List Char), (a :: (A ++ pat ++ B)).drop pat.length)
      else (findSplit pat (A ++ pat ++ B)).map (fun q => (a :: q.1, q.2))) = some (a :: A, B)
    rw [if_neg hcond, ih hA2]
    rfl

/-- The opening title tag. -/
def titleOpen : List Char := "<title>".data

/-- The closing title tag. -/
def titleClose : List Char := "</title>".data

/-- Re-parse the document: the text between the first occurrence of
"<title>" and the next occurrence of "</title>". -/
def extractTitle (doc : String) : Option String :=
  match findSplit titleOpen doc.data with
  | none => none
  | some q =>
    match findSplit titleClose q.2 with
    | none => none
    | some q2 => some ⟨q2.1⟩

theorem extractTitle_spec {doc : String} {P X S : List Char}
    (hdoc : doc.data = P ++ titleOpen ++ (X ++ titleClose ++ S))
    (hP : ¬ titleOpen <:+: P) (hX : ¬ titleClose <:+: X) :
    extractTitle doc = some ⟨X⟩ := by
  unfold extractTitle
  rw [hdoc]
  rw [findSplit_spec _ (by decide) (by decide) hP]
  show (match findSplit titleClose (X ++ titleClose ++ S) with
    | none => none
    | some q2 => some (⟨q2.1⟩ : String)) = some ⟨X⟩
  rw [findSplit_spec _ (by decide) (by decide) hX]

/-- The head of the page skeleton before the title text. -/
def htmlTpl0pre : String := "<!DOCTYPE html>\n<html lang=\"en\">\n<head>\n    <meta charset=\"UTF-8\">\n    <meta name=\"viewport\" content=\"width=device-width, initial-scale=1.0\">\n    "

/-- Everything following the title text in the assembled document. -/
def afterTitleTail (css content header_section footer_section : String) : String :=
  "\n    <style>" ++ (css ++ (htmlTpl2 ++ (header_section ++
    (htmlTpl3 ++ (content ++ (htmlTpl4 ++ (footer_section ++ htmlTpl5)))))))

theorem html_template_format_data (title css content header_section footer_section : String) :
    (html_template_format title css content header_section footer_section).data =
      htmlTpl0pre.data ++ titleOpen ++
        (title.data ++ titleClose ++
          (afterTitleTail css content header_section footer_section).data) := by
  simp only [html_template_format, afterTitleTail, String.data_append, List.append_assoc]
  rw [show htmlTpl0.data = htmlTpl0pre.data ++ (titleOpen ++ []) from by decide]
  rw [show htmlTpl1.data = titleClose ++ "\n    <style>".data from by decide]
  simp only [List.append_assoc, List.append_nil, List.nil_append]

/-- The derived title never contains the closing tag: a lowercase t cannot
follow a slash in a title-cased string. -/
theorem derivedTitle_no_titleClose (stem : String) :
    ¬ titleClose <:+: (derivedTitle stem).data :=
  titleAux_no_occurrence
    (show titleClose = ['<'] ++ '/' :: 't' :: "itle>".data from by decide)
    (by decide) (by decide) false (underscoresToSpaces stem).data

/-- C7: on every successful run of convert_md_to_html, re-parsing the written
document for its title element (the text between the first "<title>" and the
following "</title>") yields exactly the input filename stem with underscores
replaced by spaces and title-cased. -/
theorem c7_title_element (md : MdEngine) (now : Timestamp) (fs : FS)
    (input_file : PyPath) (output_file : Option PyPath) (include_headers : Bool) (s : String)
    (hav : md.available = true) (hread : fs.findFile input_file = some (.text s))
    {r : PyPath} {fs2 : FS} {ev : List Event}
    (hrun : convert_md_to_html md now fs input_file output_file include_headers =
      (.ok r, fs2, ev)) :
    extractTitle (writtenDoc fs2 r) = some (derivedTitle input_file.stem) := by
  rw [convert_md_to_html_run md now fs input_file output_file include_headers s hav hread]
    at hrun
  rw [Prod.mk.injEq, Prod.mk.injEq, Except.ok.injEq] at hrun
  obtain ⟨h1, h2, h3⟩ := hrun
  subst h1
  subst h2
  rw [writtenDoc_setFile_text]
  exact extractTitle_spec
    (html_template_format_data (derivedTitle input_file.stem) css_template (md.convert s) _ _)
    (by decide) (derivedTitle_no_titleClose input_file.stem)

/-- Witness for C7 at a concrete run: the stem my_notes yields the title
My Notes. -/
theorem c7_title_element_witness :
    extractTitle (writtenDoc
        (convert_md_to_html mdW nowW fsW inW none true).2.1
        ⟨"docs", "my_notes", ".html"⟩) = some "My Notes" := by
  have h := @c7_title_element mdW nowW fsW inW none true "hello" rfl rfl
    ⟨"docs", "my_notes", ".html"⟩
    (convert_md_to_html mdW nowW fsW inW none true).2.1
    (convert_md_to_html mdW nowW fsW inW none true).2.2
    rfl
  exact h.trans (by decide)

/-! ### The candidate scan of the HTML-to-PDF stage -/

theorem scanChrome_eq_true_iff (env : ChromeEnv) (h o : PyPath) (l : List String) :
    scanChrome env h o l = true ↔ ∃ p ∈ l, attemptGood env h o p = true := by
  induction l with
  | nil => simp [scanChrome]
  | cons p rest ih =>
    cases hp : attemptGood env h o p with
    | true =>
      constructor
      · intro _
        exact ⟨p, List.mem_cons_self p rest, hp⟩
      · intro _
        simp [scanChrome, hp]
    | false =>
      rw [show scanChrome env h o (p :: rest) = scanChrome env h o rest from by
        simp [scanChrome, hp], ih]
      constructor
      · rintro ⟨q, hq, hgood⟩
        exact ⟨q, List.mem_cons_of_mem p hq, hgood⟩
      · rintro ⟨q, hq, hgood⟩
        rcases List.mem_cons.mp hq with rfl | hq2
        · rw [hp] at hgood
          simp at hgood
        · exact ⟨q, hq2, hgood⟩

theorem scanChrome_eq_find (env : ChromeEnv) (h o : PyPath) (l : List String) :
    scanChrome env h o l = (l.find? (attemptGood env h o)).isSome := by
  induction l with
  | nil => simp [scanChrome]
  | cons p rest ih =>
    cases hp : attemptGood env h o p with
    | true =>
      rw [List.find?_cons_of_pos _ hp]
      simp [scanChrome, hp]
    | false =>
      rw [List.find?_cons_of_neg _ (by simp [hp])]
      rw [show scanChrome env h o (p :: rest) = scanChrome env h o rest from by
        simp [scanChrome, hp]]
      exact ih

theorem scanChrome_eq_false (env : ChromeEnv) (h o : PyPath) {l : List String}
    (hfail : ∀ p ∈ l, attemptGood env h o p = false) : scanChrome env h o l = false := by
  rcases Bool.eq_false_or_eq_true (scanChrome env h o l) with hh | hh
  · obtain ⟨p, hp, hgood⟩ := (scanChrome_eq_true_iff env h o l).mp hh
    rw [hfail p hp] at hgood
    simp at hgood
  · exact hh

/-- C4: the HTML-to-PDF stage scans the fixed candidate list in order with
first success winning: it returns true exactly when some candidate passes the
version probe and exits 0 on the render — equivalently, exactly when the
first-success search over the ordered list finds one — and false when no
candidate succeeds; a failing candidate attempt (caught exception or nonzero
exit) never aborts the scan, the loop just moves on to the next candidate. -/
theorem c4_chrome_scan (env : ChromeEnv) (h o : PyPath) :
    (html_to_pdf_chrome env h o = true ↔
      ∃ p ∈ chrome_paths, attemptGood env h o p = true) ∧
    html_to_pdf_chrome env h o = (chrome_paths.find? (attemptGood env h o)).isSome ∧
    (∀ p rest, attemptGood env h o p = false →
      scanChrome env h o (p :: rest) = scanChrome env h o rest) := by
  refine ⟨scanChrome_eq_true_iff env h o chrome_paths,
    scanChrome_eq_find env h o chrome_paths, ?_⟩
  intro p rest hp
  simp [scanChrome, hp]

/-- Witness for C4: with an everywhere-succeeding browser environment the
scan returns true; with an everywhere-failing one, dropping the failing head
candidate does not change the scan. -/
theorem c4_chrome_scan_witness :
    html_to_pdf_chrome envOkW ⟨"docs", "my_notes", ".html"⟩ ⟨"docs", "my_notes", ".pdf"⟩
        = true ∧
    scanChrome envFailW ⟨"docs", "my_notes", ".html"⟩ ⟨"docs", "my_notes", ".pdf"⟩
        ("chrome" :: ["chromium"]) =
      scanChrome envFailW ⟨"docs", "my_notes", ".html"⟩ ⟨"docs", "my_notes", ".pdf"⟩
        ["chromium"] := by
  constructor
  · exact (c4_chrome_scan envOkW _ _).1.mpr ⟨"chrome", by decide, by decide⟩
  · exact (c4_chrome_scan envFailW _ _).2.2 "chrome" ["chromium"] (by decide)

/-- C1: when the markdown engine is available, the input file is readable and
no candidate browser succeeds, convert_md_to_pdf raises no exception: it
returns ok with the intermediate HTML path (the input path with suffix
".html"), that file exists on disk after the call, and the degraded outcome
is observable only through the ".html" extension of the returned path. -/
theorem c1_pdf_degrades_to_html (md : MdEngine) (env : ChromeEnv) (now : Timestamp)
    (fs : FS) (input_file : PyPath) (output_file : Option PyPath) (include_headers : Bool)
    (s : String) (hav : md.available = true)
    (hread : fs.findFile input_file = some (.text s))
    (hfail : ∀ p ∈ chrome_paths, attemptGood env (input_file.withSuffix ".html")
      (output_file.getD (input_file.withSuffix ".pdf")) p = false) :
    (convert_md_to_pdf md env now fs input_file output_file include_headers).1 =
        .ok (input_file.withSuffix ".html") ∧
    ((convert_md_to_pdf md env now fs input_file output_file include_headers).2.1.findFile
        (input_file.withSuffix ".html")).isSome = true ∧
    (input_file.withSuffix ".html").ext = ".html" := by
  simp only [convert_md_to_pdf,
    convert_md_to_html_run md now fs input_file none include_headers s hav hread,
    Option.getD_none]
  rw [show html_to_pdf_chrome env (input_file.withSuffix ".html")
      (output_file.getD (input_file.withSuffix ".pdf")) = false from
    scanChrome_eq_false env _ _ hfail]
  simp only [Bool.false_eq_true, if_false]
  refine ⟨?_, ?_, ?_⟩
  · trivial
  · rw [FS.findFile_setFile_self]
    rfl
  · rfl

/-- Witness for C1 at a concrete filesystem and failing environment. -/
theorem c1_pdf_degrades_to_html_witness :
    (convert_md_to_pdf mdW envFailW nowW fsW inW (some ⟨"out", "my_notes", ".pdf"⟩) true).1 =
        .ok ⟨"docs", "my_notes", ".html"⟩ ∧
    ((convert_md_to_pdf mdW envFailW nowW fsW inW
        (some ⟨"out", "my_notes", ".pdf"⟩) true).2.1.findFile
      ⟨"docs", "my_notes", ".html"⟩).isSome = true := by
  have h := c1_pdf_degrades_to_html mdW envFailW nowW fsW inW
    (some ⟨"out", "my_notes", ".pdf"⟩) true "hello" rfl rfl
    (by intro p hp; rfl)
  exact ⟨h.1, h.2.1⟩

/-- C8: convert_md_to_pdf always writes its intermediate HTML file to the
input file's own directory under the input stem with suffix ".html",
ignoring the requested PDF output path's directory; consequently, when
rendering fails under an explicit output path the returned degraded artifact
resides in the input directory. -/
theorem c8_intermediate_in_input_dir (md : MdEngine) (env : ChromeEnv) (now : Timestamp)
    (fs : FS) (input_file : PyPath) (output_file : Option PyPath) (include_headers : Bool)
    (s : String) (hav : md.available = true)
    (hread : fs.findFile input_file = some (.text s)) :
    (∃ doc, Event.writeF (input_file.withSuffix ".html") doc ∈
      (convert_md_to_pdf md env now fs input_file output_file include_headers).2.2) ∧
    (input_file.withSuffix ".html").dir = input_file.dir ∧
    (html_to_pdf_chrome env (input_file.withSuffix ".html")
        (output_file.getD (input_file.withSuffix ".pdf")) = false →
      (convert_md_to_pdf md env now fs input_file output_file include_headers).1 =
        .ok (input_file.withSuffix ".html")) := by
  simp only [convert_md_to_pdf,
    convert_md_to_html_run md now fs input_file none include_headers s hav hread,
    Option.getD_none]
  refine ⟨?_, rfl, ?_⟩
  · by_cases hc : html_to_pdf_chrome env (input_file.withSuffix ".html")
        (output_file.getD (input_file.withSuffix ".pdf")) = true
    · rw [if_pos hc]
      exact ⟨_, List.mem_append_left _
        (List.mem_cons_of_mem _ (List.mem_cons_self _ _))⟩
    · rw [if_neg hc]
      exact ⟨_, List.mem_append_left _
        (List.mem_cons_of_mem _ (List.mem_cons_self _ _))⟩
  · intro hfalse
    rw [hfalse]
    simp only [Bool.false_eq_true, if_false]

/-- Witness for C8: the degraded artifact lands in the input directory, not
in the explicitly requested output directory. -/
theorem c8_intermediate_in_input_dir_witness :
    (∃ doc, Event.writeF ⟨"docs", "my_notes", ".html"⟩ doc ∈
      (convert_md_to_pdf mdW envFailW nowW fsW inW
        (some ⟨"out", "my_notes", ".pdf"⟩) true).2.2) ∧
    (convert_md_to_pdf mdW envFailW nowW fsW inW
        (some ⟨"out", "my_notes", ".pdf"⟩) true).1 =
      .ok ⟨"docs", "my_notes", ".html"⟩ := by
  have h := c8_intermediate_in_input_dir mdW envFailW nowW fsW inW
    (some ⟨"out", "my_notes", ".pdf"⟩) true "hello" rfl rfl
  exact ⟨h.1, h.2.2 (by decide)⟩

/-- C9: the markdown-engine availability check precedes the input-existence
check and all file I/O in convert_md_to_html: with the engine unavailable the
call raises DependencyMissing for every filesystem, in particular when the
input path does not exist; and whenever the call raises any error, the
filesystem is returned unchanged and the event trace is empty — no output
file was created and no input file was read. -/
theorem c9_dependency_check_first (md : MdEngine) (now : Timestamp) :
    (md.available = false → ∀ (fs : FS) (input_file : PyPath) (output_file : Option PyPath)
        (include_headers : Bool),
      convert_md_to_html md now fs input_file output_file include_headers =
        (.error .dependencyMissing, fs, [])) ∧
    (∀ (fs : FS) (input_file : PyPath) (output_file : Option PyPath)
        (include_headers : Bool) (e : ConvError),
      (convert_md_to_html md now fs input_file output_file include_headers).1 = .error e →
      convert_md_to_html md now fs input_file output_file include_headers =
        (.error e, fs, [])) := by
  constructor
  · intro hunav fs input_file output_file include_headers
    unfold convert_md_to_html
    rw [hunav]
    simp
  · intro fs input_file output_file include_headers e hres
    unfold convert_md_to_html at hres ⊢
    by_cases h1 : md.available = false
    · rw [if_pos h1] at hres ⊢
      have he := Except.error.inj hres
      rw [he]
    · rw [if_neg h1] at hres ⊢
      by_cases h2 : fs.existsFile input_file = false
      · rw [if_pos h2] at hres ⊢
        have he := Except.error.inj hres
        rw [he]
      · rw [if_neg h2] at hres ⊢
        cases hf : fs.findFile input_file with
        | none =>
          try rw [hf] at hres
          try rw [hf]
          have he := Except.error.inj hres
          rw [he]
        | some v =>
          cases v with
          | text s =>
            try rw [hf] at hres
            exact Except.noConfusion hres
          | unreadable =>
            try rw [hf] at hres
            try rw [hf]
            have he := Except.error.inj hres
            rw [he]
          | pdfData =>
            try rw [hf] at hres
            try rw [hf]
            have he := Except.error.inj hres
            rw [he]

/-- Witness for C9: with the engine unavailable and an input file that does
not even exist, the call returns DependencyMissing and changes nothing. -/
theorem c9_dependency_check_first_witness :
    convert_md_to_html mdNone nowW ⟨[], []⟩ ⟨"docs", "absent", ".md"⟩ none true =
      (.error .dependencyMissing, (⟨[], []⟩ : FS), []) := by
  exact (c9_dependency_check_first mdNone nowW).1 rfl ⟨[], []⟩ ⟨"docs", "absent", ".md"⟩
    none true

/-! ### Facts about the batch loop -/

theorem batchLoop_results_eq (md : MdEngine) (env : ChromeEnv) (now : Timestamp)
    (to_pdf include_headers : Bool) (output_path : String) :
    ∀ (files : List PyPath) (fs : FS),
      (batchLoop md env now to_pdf include_headers output_path fs files).1 =
        (batchOutcomes md env now to_pdf include_headers output_path fs files).reduceOption := by
  intro files
  induction files with
  | nil => intro fs; rfl
  | cons f rest ih =>
    intro fs
    show (match convertOne md env now to_pdf include_headers output_path fs f with
      | (.ok r, fs1, ev1) =>
        let t := batchLoop md env now to_pdf include_headers output_path fs1 rest
        (r :: t.1, t.2.1, ev1 ++ t.2.2)
      | (.error _, fs1, ev1) =>
        let t := batchLoop md env now to_pdf include_headers output_path fs1 rest
        (t.1, t.2.1, ev1 ++ t.2.2)).1 =
      (match convertOne md env now to_pdf include_headers output_path fs f with
        | (.ok r, fs1, _) =>
          some r :: batchOutcomes md env now to_pdf include_headers output_path fs1 rest
        | (.error _, fs1, _) =>
          none :: batchOutcomes md env now to_pdf include_headers output_path fs1 rest).reduceOption
    rcases hc : convertOne md env now to_pdf include_headers output_path fs f with ⟨res, fs1, ev1⟩
    cases res with
    | ok r =>
      simp only [List.reduceOption_cons_of_some]
      rw [← ih fs1]
    | error e =>
      simp only [List.reduceOption_cons_of_none]
      rw [← ih fs1]

theorem batchOutcomes_length (md : MdEngine) (env : ChromeEnv) (now : Timestamp)
    (to_pdf include_headers : Bool) (output_path : String) :
    ∀ (files : List PyPath) (fs : FS),
      (batchOutcomes md env now to_pdf include_headers output_path fs files).length =
        files.length := by
  intro files
  induction files with
  | nil => intro fs; rfl
  | cons f rest ih =>
    intro fs
    show (match convertOne md env now to_pdf include_headers output_path fs f with
      | (.ok r, fs1, _) =>
        some r :: batchOutcomes md env now to_pdf include_headers output_path fs1 rest
      | (.error _, fs1, _) =>
        none :: batchOutcomes md env now to_pdf include_headers output_path fs1 rest).length =
      (f :: rest).length
    rcases hc : convertOne md env now to_pdf include_headers output_path fs f with ⟨res, fs1, ev1⟩
    cases res with
    | ok r => simp [ih fs1]
    | error e => simp [ih fs1]

theorem reduceOption_length_add (l : List (Option PyPath)) :
    l.reduceOption.length + l.countP (fun x => x.isNone) = l.length := by
  induction l with
  | nil => rfl
  | cons x rest ih =>
    cases x with
    | none =>
      rw [List.reduceOption_cons_of_none]
      have hcount : (none :: rest).countP (fun x => x.isNone) =
          rest.countP (fun x => x.isNone) + 1 := by
        simp [List.countP_cons]
      rw [hcount, List.length_cons]
      omega
    | some p =>
      rw [List.reduceOption_cons_of_some]
      have hcount : (some p :: rest).countP (fun x => x.isNone) =
          rest.countP (fun x => x.isNone) := by
        simp [List.countP_cons]
      rw [hcount, List.length_cons, List.length_cons]
      omega

theorem batch_convert_results (md : MdEngine) (env : ChromeEnv) (now : Timestamp)
    (fs : FS) (input_dir : String) (output_dir : Option String) (to_pdf : Bool)
    (pattern : String) (include_headers : Bool) (hdir : input_dir ∈ fs.dirs) :
    (batch_convert md env now fs input_dir output_dir to_pdf pattern include_headers).1 =
      .ok ((batchOutcomes md env now to_pdf include_headers (output_dir.getD input_dir)
        (batchStartFS fs output_dir)
        ((batchStartFS fs output_dir).glob input_dir pattern)).reduceOption) := by
  unfold batch_convert
  rw [if_pos hdir]
  by_cases hempty : ((batchStartFS fs output_dir).glob input_dir pattern).isEmpty = true
  · rw [if_pos hempty]
    have h0 : (batchStartFS fs output_dir).glob input_dir pattern = [] :=
      List.isEmpty_iff.mp hempty
    rw [h0]
    rfl
  · rw [if_neg hempty]
    show Except.ok (batchLoop md env now to_pdf include_headers (output_dir.getD input_dir)
        (batchStartFS fs output_dir)
        ((batchStartFS fs output_dir).glob input_dir pattern)).1 = _
    rw [batchLoop_results_eq]

/-! ### The set of directories is never changed by conversions -/

theorem FS.dirs_setFile (fs : FS) (p : PyPath) (v : FVal) :
    (fs.setFile p v).dirs = fs.dirs := by
  unfold FS.setFile
  split <;> rfl

theorem dirs_convert_md_to_html (md : MdEngine) (now : Timestamp) (fs : FS)
    (input_file : PyPath) (output_file : Option PyPath) (include_headers : Bool) :
    (convert_md_to_html md now fs input_file output_file include_headers).2.1.dirs =
      fs.dirs := by
  unfold convert_md_to_html
  split
  · rfl
  · split
    · rfl
    · split
      · exact FS.dirs_setFile fs _ _
      · rfl

theorem dirs_convert_md_to_pdf (md : MdEngine) (env : ChromeEnv) (now : Timestamp) (fs : FS)
    (input_file : PyPath) (output_file : Option PyPath) (include_headers : Bool) :
    (convert_md_to_pdf md env now fs input_file output_file include_headers).2.1.dirs =
      fs.dirs := by
  unfold convert_md_to_pdf
  split
  · next e fs1 ev1 heq =>
    have h := dirs_convert_md_to_html md now fs input_file none include_headers
    rw [heq] at h
    exact h
  · next r fs1 ev1 heq =>
    have h := dirs_convert_md_to_html md now fs input_file none include_headers
    rw [heq] at h
    show ((if html_to_pdf_chrome env r (output_file.getD (input_file.withSuffix ".pdf")) = true
        then
          (Except.ok (output_file.getD (input_file.withSuffix ".pdf")),
            (fs1.setFile (output_file.getD (input_file.withSuffix ".pdf"))
              FVal.pdfData).delFile r,
            ev1 ++ [Event.chromePdf (output_file.getD (input_file.withSuffix ".pdf")),
              Event.deleteF r])
        else (Except.ok r, fs1, ev1 ++ [Event.openBrowser r])) :
        Except ConvError PyPath × FS × List Event).2.1.dirs = fs.dirs
    by_cases hc : html_to_pdf_chrome env r (output_file.getD (input_file.withSuffix ".pdf"))
        = true
    · rw [if_pos hc]
      show ((fs1.setFile (output_file.getD (input_file.withSuffix ".pdf"))
        FVal.pdfData).delFile r).dirs = fs.dirs
      rw [show ((fs1.setFile (output_file.getD (input_file.withSuffix ".pdf"))
        FVal.pdfData).delFile r).dirs =
        (fs1.setFile (output_file.getD (input_file.withSuffix ".pdf")) FVal.pdfData).dirs
        from rfl]
      rw [FS.dirs_setFile]
      exact h
    · rw [if_neg hc]
      exact h

theorem dirs_convertOne (md : MdEngine) (env : ChromeEnv) (now : Timestamp)
    (to_pdf include_headers : Bool) (output_path : String) (fs : FS) (f : PyPath) :
    (convertOne md env now to_pdf include_headers output_path fs f).2.1.dirs = fs.dirs := by
  unfold convertOne
  split
  · exact dirs_convert_md_to_pdf md env now fs f _ include_headers
  · exact dirs_convert_md_to_html md now fs f _ include_headers

theorem dirs_batchLoop (md : MdEngine) (env : ChromeEnv) (now : Timestamp)
    (to_pdf include_headers : Bool) (output_path : String) :
    ∀ (files : List PyPath) (fs : FS),
      (batchLoop md env now to_pdf include_headers output_path fs files).2.1.dirs =
        fs.dirs := by
  intro files
  induction files with
  | nil => intro fs; rfl
  | cons f rest ih =>
    intro fs
    have hone := dirs_convertOne md env now to_pdf include_headers output_path fs f
    show (match convertOne md env now to_pdf include_headers output_path fs f with
      | (.ok r, fs1, ev1) =>
        let t := batchLoop md env now to_pdf include_headers output_path fs1 rest
        (r :: t.1, t.2.1, ev1 ++ t.2.2)
      | (.error _, fs1, ev1) =>
        let t := batchLoop md env now to_pdf include_headers output_path fs1 rest
        (t.1, t.2.1, ev1 ++ t.2.2)).2.1.dirs = fs.dirs
    rcases hc : convertOne md env now to_pdf include_headers output_path fs f with ⟨res, fs1, ev1⟩
    rw [hc] at hone
    cases res with
    | ok r => rw [show _ = fs1.dirs from ih fs1]; exact hone
    | error e => rw [show _ = fs1.dirs from ih fs1]; exact hone

theorem mem_mkdirParents (fs : FS) (d : String) : d ∈ (fs.mkdirParents d).dirs := by
  unfold FS.mkdirParents
  by_cases hd : d ∈ fs.dirs
  · rw [if_pos hd]
    exact hd
  · rw [if_neg hd]
    exact List.mem_append_right _ (List.mem_singleton.mpr rfl)

/-- C6: batch_convert fails with InputDirectoryNotFound exactly when the
input directory does not exist; when it exists the call returns normally, an
unspecified output directory behaves identically to passing the input
directory itself, an explicitly given output directory is created (with
parents), and an empty match list yields the empty result list rather than
an error. -/
theorem c6_batch_directory_handling (md : MdEngine) (env : ChromeEnv) (now : Timestamp)
    (fs : FS) (input_dir : String) (output_dir : Option String) (to_pdf : Bool)
    (pattern : String) (include_headers : Bool) :
    ((batch_convert md env now fs input_dir output_dir to_pdf pattern include_headers).1 =
        .error .inputDirNotFound ↔ ¬ input_dir ∈ fs.dirs) ∧
    (input_dir ∈ fs.dirs → ∃ rs,
      (batch_convert md env now fs input_dir output_dir to_pdf pattern include_headers).1 =
        .ok rs) ∧
    (input_dir ∈ fs.dirs →
      batch_convert md env now fs input_dir none to_pdf pattern include_headers =
        batch_convert md env now fs input_dir (some input_dir) to_pdf pattern
          include_headers) ∧
    (∀ d, input_dir ∈ fs.dirs →
      d ∈ (batch_convert md env now fs input_dir (some d) to_pdf pattern
        include_headers).2.1.dirs) ∧
    (input_dir ∈ fs.dirs →
      (batchStartFS fs output_dir).glob input_dir pattern = [] →
      (batch_convert md env now fs input_dir output_dir to_pdf pattern include_headers).1 =
        .ok []) := by
  refine ⟨⟨?_, ?_⟩, ?_, ?_, ?_, ?_⟩
  · intro hres
    intro hmem
    rw [batch_convert_results md env now fs input_dir output_dir to_pdf pattern
      include_headers hmem] at hres
    exact Except.noConfusion hres
  · intro hnot
    unfold batch_convert
    rw [if_neg hnot]
  · intro hdir
    exact ⟨_, batch_convert_results md env now fs input_dir output_dir to_pdf pattern
      include_headers hdir⟩
  · intro hdir
    unfold batch_convert
    rw [if_pos hdir, if_pos hdir]
    have hfs1 : batchStartFS fs (some input_dir) = fs := by
      show fs.mkdirParents input_dir = fs
      unfold FS.mkdirParents
      rw [if_pos hdir]
    rw [hfs1]
    rfl
  · intro d hdir
    unfold batch_convert
    rw [if_pos hdir]
    by_cases hempty : ((batchStartFS fs (some d)).glob input_dir pattern).isEmpty = true
    · rw [if_pos hempty]
      exact mem_mkdirParents fs d
    · rw [if_neg hempty]
      show d ∈ (batchLoop md env now to_pdf include_headers ((some d).getD input_dir)
        (batchStartFS fs (some d))
        ((batchStartFS fs (some d)).glob input_dir pattern)).2.1.dirs
      rw [dirs_batchLoop]
      exact mem_mkdirParents fs d
  · intro hdir hglob
    unfold batch_convert
    rw [if_pos hdir]
    have hempty : ((batchStartFS fs output_dir).glob input_dir pattern).isEmpty = true := by
      rw [hglob]
      rfl
    rw [if_pos hempty]

/-- Witness for C6 at concrete filesystems: omitting the output directory
equals passing the input directory, an explicit output directory appears in
the resulting directory set, and a missing input directory raises. -/
theorem c6_batch_directory_handling_witness :
    (batch_convert mdW envFailW nowW fsW "docs" none false "*.md" true =
      batch_convert mdW envFailW nowW fsW "docs" (some "docs") false "*.md" true) ∧
    "out" ∈ (batch_convert mdW envFailW nowW fsW "docs" (some "out") false "*.md"
      true).2.1.dirs ∧
    (batch_convert mdW envFailW nowW ⟨[], []⟩ "docs" none false "*.md" true).1 =
      .error .inputDirNotFound := by
  refine ⟨?_, ?_, ?_⟩
  · exact (c6_batch_directory_handling mdW envFailW nowW fsW "docs" none false "*.md"
      true).2.2.1 (by decide)
  · exact (c6_batch_directory_handling mdW envFailW nowW fsW "docs" (some "out") false
      "*.md" true).2.2.2.1 "out" (by decide)
  · exact (c6_batch_directory_handling mdW envFailW nowW ⟨[], []⟩ "docs" none false "*.md"
      true).1.mpr (by decide)

/-- C2: when the input directory exists and exactly one of the matched
files' conversions raises (and is caught), batch_convert returns normally
with exactly N−1 results for N matched files. -/
theorem c2_batch_one_failure (md : MdEngine) (env : ChromeEnv) (now : Timestamp)
    (fs : FS) (input_dir : String) (output_dir : Option String) (to_pdf : Bool)
    (pattern : String) (include_headers : Bool)
    (hdir : input_dir ∈ fs.dirs)
    (hone : ((batchOutcomes md env now to_pdf include_headers (output_dir.getD input_dir)
        (batchStartFS fs output_dir)
        ((batchStartFS fs output_dir).glob input_dir pattern)).countP
          (fun x => x.isNone)) = 1) :
    ∃ rs,
      (batch_convert md env now fs input_dir output_dir to_pdf pattern include_headers).1 =
        .ok rs ∧
      rs.length + 1 = ((batchStartFS fs output_dir).glob input_dir pattern).length := by
  refine ⟨_, batch_convert_results md env now fs input_dir output_dir to_pdf pattern
    include_headers hdir, ?_⟩
  have hlen := reduceOption_length_add (batchOutcomes md env now to_pdf include_headers
    (output_dir.getD input_dir) (batchStartFS fs output_dir)
    ((batchStartFS fs output_dir).glob input_dir pattern))
  have hN := batchOutcomes_length md env now to_pdf include_headers
    (output_dir.getD input_dir) ((batchStartFS fs output_dir).glob input_dir pattern)
    (batchStartFS fs output_dir)
  omega

/-- A directory with two matched files, one of them unreadable. -/
def fsB2 : FS :=
  ⟨["docs"], [(⟨"docs", "a", ".md"⟩, .text "x"), (⟨"docs", "b", ".md"⟩, .unreadable)]⟩

/-- Witness for C2: two matched files, one unreadable, one result. -/
theorem c2_batch_one_failure_witness :
    ∃ rs,
      (batch_convert mdW envFailW nowW fsB2 "docs" none false "*.md" true).1 = .ok rs ∧
      rs.length + 1 = ((batchStartFS fsB2 none).glob "docs" "*.md").length := by
  exact c2_batch_one_failure mdW envFailW nowW fsB2 "docs" none false "*.md" true
    (by decide) (by decide)

/-- C10: the batch result list is the in-order sequence of successful
per-file outcomes: the loop result equals the pointwise outcome list with
the failures dropped, the outcome list has one entry per matched file in
enumeration order, each entry is exactly what the single-file pipeline
returned for the corresponding file in the threaded state, and the result
list is therefore never longer than the matched file list. -/
theorem c10_batch_order (md : MdEngine) (env : ChromeEnv) (now : Timestamp)
    (to_pdf include_headers : Bool) :
    (∀ output_path files fs,
      (batchLoop md env now to_pdf include_headers output_path fs files).1 =
        (batchOutcomes md env now to_pdf include_headers output_path fs files).reduceOption) ∧
    (∀ output_path files fs,
      (batchOutcomes md env now to_pdf include_headers output_path fs files).length =
        files.length) ∧
    (∀ output_path files fs,
      (batchLoop md env now to_pdf include_headers output_path fs files).1.length ≤
        files.length) ∧
    (∀ output_path fs f rest,
      batchOutcomes md env now to_pdf include_headers output_path fs (f :: rest) =
        (convertOne md env now to_pdf include_headers output_path fs f).1.toOption ::
          batchOutcomes md env now to_pdf include_headers output_path
            (convertOne md env now to_pdf include_headers output_path fs f).2.1 rest) ∧
    (∀ fs input_dir output_dir pattern, input_dir ∈ fs.dirs →
      (batch_convert md env now fs input_dir output_dir to_pdf pattern include_headers).1 =
        .ok ((batchOutcomes md env now to_pdf include_headers (output_dir.getD input_dir)
          (batchStartFS fs output_dir)
          ((batchStartFS fs output_dir).glob input_dir pattern)).reduceOption)) := by
  refine ⟨?_, ?_, ?_, ?_, ?_⟩
  · intro output_path files fs
    exact batchLoop_results_eq md env now to_pdf include_headers output_path files fs
  · intro output_path files fs
    exact batchOutcomes_length md env now to_pdf include_headers output_path files fs
  · intro output_path files fs
    rw [batchLoop_results_eq md env now to_pdf include_headers output_path files fs]
    have h1 := reduceOption_length_add
      (batchOutcomes md env now to_pdf include_headers output_path fs files)
    have h2 := batchOutcomes_length md env now to_pdf include_headers output_path files fs
    omega
  · intro output_path fs f rest
    rcases hc : convertOne md env now to_pdf include_headers output_path fs f
      with ⟨res, fs1, ev1⟩
    simp only [batchOutcomes]
    rw [hc]
    cases res with
    | ok r => rfl
    | error e => rfl
  · intro fs input_dir output_dir pattern hdir
    exact batch_convert_results md env now fs input_dir output_dir to_pdf pattern
      include_headers hdir

/-- Witness for C10: a concrete batch returns exactly the in-order
successful outcome. -/
theorem c10_batch_order_witness :
    (batch_convert mdW envFailW nowW fsB2 "docs" none false "*.md" true).1 =
      .ok [⟨"docs", "a", ".html"⟩] := by
  have h := (c10_batch_order mdW envFailW nowW false true).2.2.2.2 fsB2 "docs" none "*.md"
    (by decide)
  exact h.trans (congrArg Except.ok (by decide))

/-! ### Stem preservation -/

theorem stem_convert_md_to_html (md : MdEngine) (now : Timestamp) (fs : FS)
    (input_file : PyPath) (output_file : Option PyPath) (include_headers : Bool)
    {r : PyPath} {fs2 : FS} {ev : List Event}
    (houtp : output_file = none ∨ ∃ o, output_file = some o ∧ o.stem = input_file.stem)
    (hrun : convert_md_to_html md now fs input_file output_file include_headers =
      (.ok r, fs2, ev)) :
    r.stem = input_file.stem := by
  unfold convert_md_to_html at hrun
  by_cases h1 : md.available = false
  · rw [if_pos h1] at hrun
    exact Except.noConfusion (congrArg Prod.fst hrun)
  · rw [if_neg h1] at hrun
    by_cases h2 : fs.existsFile input_file = false
    · rw [if_pos h2] at hrun
      exact Except.noConfusion (congrArg Prod.fst hrun)
    · rw [if_neg h2] at hrun
      cases hf : fs.findFile input_file with
      | none =>
        try rw [hf] at hrun
        exact Except.noConfusion (congrArg Prod.fst hrun)
      | some v =>
        cases v with
        | text sc =>
          try rw [hf] at hrun
          have hout := Except.ok.inj (congrArg Prod.fst hrun)
          rcases houtp with hnone | ⟨o, ho, hstem⟩
          · subst hnone
            rw [← hout]
            rfl
          · subst ho
            rw [← hout]
            exact hstem
        | unreadable =>
          try rw [hf] at hrun
          exact Except.noConfusion (congrArg Prod.fst hrun)
        | pdfData =>
          try rw [hf] at hrun
          exact Except.noConfusion (congrArg Prod.fst hrun)

theorem stem_convert_md_to_pdf (md : MdEngine) (env : ChromeEnv) (now : Timestamp) (fs : FS)
    (input_file : PyPath) (output_file : Option PyPath) (include_headers : Bool)
    {r : PyPath} {fs2 : FS} {ev : List Event}
    (houtp : output_file = none ∨ ∃ o, output_file = some o ∧ o.stem = input_file.stem)
    (hrun : convert_md_to_pdf md env now fs input_file output_file include_headers =
      (.ok r, fs2, ev)) :
    r.stem = input_file.stem := by
  rcases hc : convert_md_to_html md now fs input_file none include_headers
    with ⟨res, fs1, ev1⟩
  cases res with
  | error e =>
    have key : convert_md_to_pdf md env now fs input_file output_file include_headers =
        (.error e, fs1, ev1) := by
      unfold convert_md_to_pdf
      rw [hc]
    rw [key] at hrun
    exact Except.noConfusion (congrArg Prod.fst hrun)
  | ok html_file =>
    have hhtml : html_file.stem = input_file.stem :=
      stem_convert_md_to_html md now fs input_file none include_headers (Or.inl rfl) hc
    have key : convert_md_to_pdf md env now fs input_file output_file include_headers =
        (if html_to_pdf_chrome env html_file
            (output_file.getD (input_file.withSuffix ".pdf")) then
          (.ok (output_file.getD (input_file.withSuffix ".pdf")),
            ((fs1.setFile (output_file.getD (input_file.withSuffix ".pdf"))
              .pdfData).delFile html_file),
            ev1 ++ [.chromePdf (output_file.getD (input_file.withSuffix ".pdf")),
              .deleteF html_file])
        else (.ok html_file, fs1, ev1 ++ [.openBrowser html_file])) := by
      unfold convert_md_to_pdf
      rw [hc]
    rw [key] at hrun
    by_cases hch : html_to_pdf_chrome env html_file
        (output_file.getD (input_file.withSuffix ".pdf")) = true
    · rw [if_pos hch] at hrun
      have hout := Except.ok.inj (congrArg Prod.fst hrun)
      rcases houtp with hnone | ⟨o, ho, hstem⟩
      · subst hnone
        rw [← hout]
        rfl
      · subst ho
        rw [← hout]
        exact hstem
    · rw [if_neg hch] at hrun
      have hout := Except.ok.inj (congrArg Prod.fst hrun)
      rw [← hout]
      exact hhtml

theorem stem_convertOne (md : MdEngine) (env : ChromeEnv) (now : Timestamp)
    (to_pdf include_headers : Bool) (output_path : String) (fs : FS) (f : PyPath)
    {r : PyPath} {fs2 : FS} {ev : List Event}
    (hrun : convertOne md env now to_pdf include_headers output_path fs f =
      (.ok r, fs2, ev)) :
    r.stem = f.stem := by
  unfold convertOne at hrun
  by_cases ht : to_pdf = true
  · rw [if_pos ht] at hrun
    exact stem_convert_md_to_pdf md env now fs f _ include_headers
      (Or.inr ⟨⟨output_path, f.stem, ".pdf"⟩, rfl, rfl⟩) hrun
  · rw [if_neg ht] at hrun
    exact stem_convert_md_to_html md now fs f _ include_headers
      (Or.inr ⟨⟨output_path, f.stem, ".html"⟩, rfl, rfl⟩) hrun

theorem stem_batchOutcomes (md : MdEngine) (env : ChromeEnv) (now : Timestamp)
    (to_pdf include_headers : Bool) (output_path : String) :
    ∀ (files : List PyPath) (fs : FS) (i : Nat) (p : PyPath),
      (batchOutcomes md env now to_pdf include_headers output_path fs files).get? i =
        some (some p) →
      ∃ f, files.get? i = some f ∧ p.stem = f.stem := by
  intro files
  induction files with
  | nil =>
    intro fs i p h
    simp [batchOutcomes] at h
  | cons f rest ih =>
    intro fs i p h
    rcases hc : convertOne md env now to_pdf include_headers output_path fs f
      with ⟨res, fs1, ev1⟩
    rw [show batchOutcomes md env now to_pdf include_headers output_path fs (f :: rest) =
      (match convertOne md env now to_pdf include_headers output_path fs f with
       | (.ok r, fs1, _) =>
         some r :: batchOutcomes md env now to_pdf include_headers output_path fs1 rest
       | (.error _, fs1, _) =>
         none :: batchOutcomes md env now to_pdf include_headers output_path fs1 rest)
      from rfl, hc] at h
    cases res with
    | ok r =>
      cases i with
      | zero =>
        have hrp : r = p := by
          have h0 : some (some r) = some (some p) := h
          exact Option.some.inj (Option.some.inj h0)
        subst hrp
        exact ⟨f, rfl, stem_convertOne md env now to_pdf include_headers output_path fs f hc⟩
      | succ n =>
        rw [List.get?_cons_succ] at h
        obtain ⟨g, hg, hstem⟩ := ih fs1 n p h
        exact ⟨g, by rw [List.get?_cons_succ]; exact hg, hstem⟩
    | error e =>
      cases i with
      | zero =>
        have h0 : (none : Option PyPath) = some p := Option.some.inj h
        exact Option.noConfusion h0
      | succ n =>
        rw [List.get?_cons_succ] at h
        obtain ⟨g, hg, hstem⟩ := ih fs1 n p h
        exact ⟨g, by rw [List.get?_cons_succ]; exact hg, hstem⟩

/-- C5: every conversion's returned output path has the same stem as its
source document: the single-file HTML conversion (with the output defaulted
or requested with the same stem, as every call site in the program does),
the single-file PDF conversion in both its outcomes — in the degraded case
the returned HTML path always carries the input stem — and, for a batch,
every successful outcome's path has the stem of its corresponding matched
file. -/
theorem c5_output_stem_invariant :
    (∀ (md : MdEngine) (now : Timestamp) (fs : FS) (input_file : PyPath)
        (output_file : Option PyPath) (include_headers : Bool)
        (r : PyPath) (fs2 : FS) (ev : List Event),
      (output_file = none ∨ ∃ o, output_file = some o ∧ o.stem = input_file.stem) →
      convert_md_to_html md now fs input_file output_file include_headers =
        (.ok r, fs2, ev) →
      r.stem = input_file.stem) ∧
    (∀ (md : MdEngine) (env : ChromeEnv) (now : Timestamp) (fs : FS) (input_file : PyPath)
        (output_file : Option PyPath) (include_headers : Bool)
        (r : PyPath) (fs2 : FS) (ev : List Event),
      (output_file = none ∨ ∃ o, output_file = some o ∧ o.stem = input_file.stem) →
      convert_md_to_pdf md env now fs input_file output_file include_headers =
        (.ok r, fs2, ev) →
      r.stem = input_file.stem) ∧
    (∀ (md : MdEngine) (env : ChromeEnv) (now : Timestamp) (to_pdf include_headers : Bool)
        (output_path : String) (files : List PyPath) (fs : FS) (i : Nat) (p : PyPath),
      (batchOutcomes md env now to_pdf include_headers output_path fs files).get? i =
        some (some p) →
      ∃ f, files.get? i = some f ∧ p.stem = f.stem) := by
  refine ⟨?_, ?_, ?_⟩
  · intro md now fs input_file output_file include_headers r fs2 ev houtp hrun
    exact stem_convert_md_to_html md now fs input_file output_file include_headers houtp hrun
  · intro md env now fs input_file output_file include_headers r fs2 ev houtp hrun
    exact stem_convert_md_to_pdf md env now fs input_file output_file include_headers
      houtp hrun
  · intro md env now to_pdf include_headers output_path files fs i p h
    exact stem_batchOutcomes md env now to_pdf include_headers output_path files fs i p h

/-- Witness for C5 at concrete runs: a defaulted single-file conversion and
the first successful batch outcome both keep their source stems. -/
theorem c5_output_stem_invariant_witness :
    (⟨"docs", "my_notes", ".html"⟩ : PyPath).stem = inW.stem ∧
    ∃ f, ((batchStartFS fsB2 none).glob "docs" "*.md").get? 0 = some f ∧
      (⟨"docs", "a", ".html"⟩ : PyPath).stem = f.stem := by
  constructor
  · exact c5_output_stem_invariant.1 mdW nowW fsW inW none true
      ⟨"docs", "my_notes", ".html"⟩
      (convert_md_to_html mdW nowW fsW inW none true).2.1
      (convert_md_to_html mdW nowW fsW inW none true).2.2
      (Or.inl rfl) rfl
  · exact c5_output_stem_invariant.2.2 mdW envFailW nowW false true "docs"
      ((batchStartFS fsB2 none).glob "docs" "*.md") (batchStartFS fsB2 none) 0
      ⟨"docs", "a", ".html"⟩ (by decide)

end UMC
